import Mathlib

/-!
Verification of the pipeline coordination subsystem of the
patent-research-backend repository, against its natural-language
specification.

The Python sources embedded here (shallowly) are:
  * `src/app/core/pipeline/state_machine.py`
  * `src/app/core/pipeline/completion_calculator.py`
  * `src/app/core/pipeline/coordination.py`
  * `src/app/core/pipeline/resource_manager.py`
  * `src/app/core/pipeline/manual_overrides.py`

Conventions of the embedding:
  * Python `float` percentages/weights become `ℚ` (the arithmetic in the
    sources is plain ratios, sums and comparisons).
  * Python exceptions become `Except` / explicit error values; an exception
    raised inside a `try` whose handler returns a value is embedded as that
    handler's value.
  * External collaborators the code references but that do not exist in the
    repository (the database session, `IDService`, the md5 step of the mock
    similarity) are embedded as explicit inputs: fresh ids are drawn from a
    counter threaded through the state, and the md5-derived integer
    `int(hashlib.md5(h).hexdigest()[:8], 16)` is an input `ℕ`.
  * Python `str`-mixin enums compare by their string value (two members of
    different enum classes with the same value are `==` in Python); state
    comparisons in `validate_transition` are therefore embedded through the
    `stateVal` string of each state.
-/

deriving instance DecidableEq for Except

/-! ## state_machine.py -/

/-- `PipelineDocumentState` (state_machine.py, lines 36-45). -/
inductive PipelineDocumentState
  | ingested
  | normalized
  | textExtracted
  | imagesExtracted
  | partiallyProcessed
  | ready
  | blocked
  | failed
deriving DecidableEq, Repr

/-- `PipelineImageState` (state_machine.py, lines 48-60).  Note the enum has
no `BLOCKED` member (eleven states, `image_extracted` through `ready`). -/
inductive PipelineImageState
  | imageExtracted
  | hashed
  | duplicateChecked
  | duplicateLinked
  | unique
  | ignored
  | needsInterpretation
  | interpreted
  | needsHitl
  | canonicalized
  | ready
deriving DecidableEq, Repr

/-- `TransitionTrigger` (state_machine.py, lines 63-85). -/
inductive TransitionTrigger
  | extractionComplete
  | normalizationComplete
  | hashGenerated
  | duplicateAnalysisComplete
  | ocrComplete
  | visionAnalysisComplete
  | humanApproval
  | humanRejection
  | humanIgnore
  | manualOverride
  | timeoutExpired
  | emergencyBypass
  | completionThresholdMet
  | criticalImagesComplete
deriving DecidableEq, Repr

/-- The string value of a document state (the `str` payload of the Python
`str`-mixin enum member). -/
def PipelineDocumentState.val : PipelineDocumentState → String
  | .ingested => "ingested"
  | .normalized => "normalized"
  | .textExtracted => "text_extracted"
  | .imagesExtracted => "images_extracted"
  | .partiallyProcessed => "partially_processed"
  | .ready => "ready"
  | .blocked => "blocked"
  | .failed => "failed"

/-- The string value of an image state. -/
def PipelineImageState.val : PipelineImageState → String
  | .imageExtracted => "image_extracted"
  | .hashed => "hashed"
  | .duplicateChecked => "duplicate_checked"
  | .duplicateLinked => "duplicate_linked"
  | .unique => "unique"
  | .ignored => "ignored"
  | .needsInterpretation => "needs_interpretation"
  | .interpreted => "interpreted"
  | .needsHitl => "needs_hitl"
  | .canonicalized => "canonicalized"
  | .ready => "ready"

/-- A state that is either a document state or an image state: the
`Union[PipelineDocumentState, PipelineImageState]` of the source. -/
def PipelineState : Type := PipelineDocumentState ⊕ PipelineImageState

instance : DecidableEq PipelineState := by
  unfold PipelineState
  infer_instance

instance : Repr PipelineState := by
  unfold PipelineState
  infer_instance

/-- The Python string value of a `PipelineState`; Python's `==` on
`str`-mixin enum members compares exactly these strings. -/
def stateVal : PipelineState → String
  | .inl d => d.val
  | .inr i => i.val

/-- `StateTransition` (state_machine.py, lines 88-97).  The Python
`required_permissions` / `preconditions` / `postconditions` sets are kept as
lists (every set in the authoritative table holds at most one completion
threshold condition, so iteration order never matters to
`_validate_preconditions`). -/
structure StateTransition where
  fromState : PipelineState
  trigger : TransitionTrigger
  toState : PipelineState
  requiredPermissions : List String
  preconditions : List String
  postconditions : List String
  validationRequired : Bool := true
deriving DecidableEq, Repr

/-- `TransitionContext` (state_machine.py, lines 100-108). -/
structure TransitionContext where
  entityId : String
  entityType : String
  userId : Option String := none
  overrideReason : Option String := none
  completionPercentage : Option ℚ := none
deriving DecidableEq, Repr

/-- `StateTransitionError` (state_machine.py, lines 123-128).  The Python
`context` dict is embedded by its fields that the sources put into it:
the list of valid triggers (`INVALID_TRANSITION`) and the required/actual
percentages (`COMPLETION_THRESHOLD_NOT_MET`). -/
structure StateTransitionErr where
  message : String := ""
  errorCode : String
  validTriggers : List TransitionTrigger := []
  requiredPercentage : Option ℚ := none
  actualPercentage : Option ℚ := none
deriving DecidableEq, Repr

/-- The `INGESTED --normalization_complete--> NORMALIZED` rule
(state_machine.py, lines 139-148). -/
def ruleIngested : StateTransition :=
  { fromState := .inl .ingested
    trigger := .normalizationComplete
    toState := .inl .normalized
    requiredPermissions := ["system"]
    preconditions := ["document_format_validated"]
    postconditions := ["normalized_format_stored"] }

/-- The `NORMALIZED --extraction_complete--> TEXT_EXTRACTED` rule (lines
149-158). -/
def ruleNormalized : StateTransition :=
  { fromState := .inl .normalized
    trigger := .extractionComplete
    toState := .inl .textExtracted
    requiredPermissions := ["system"]
    preconditions := ["text_extraction_successful"]
    postconditions := ["extracted_text_stored"] }

/-- The `TEXT_EXTRACTED --extraction_complete--> IMAGES_EXTRACTED` rule
(lines 159-168). -/
def ruleTextExtracted : StateTransition :=
  { fromState := .inl .textExtracted
    trigger := .extractionComplete
    toState := .inl .imagesExtracted
    requiredPermissions := ["system"]
    preconditions := ["image_extraction_complete"]
    postconditions := ["images_cataloged"] }

/-- The `IMAGES_EXTRACTED --completion_threshold_met-->
PARTIALLY_PROCESSED` rule (lines 169-178). -/
def ruleImagesExtracted : StateTransition :=
  { fromState := .inl .imagesExtracted
    trigger := .completionThresholdMet
    toState := .inl .partiallyProcessed
    requiredPermissions := ["system"]
    preconditions := ["completion_70_percent", "critical_images_complete"]
    postconditions := ["partial_completion_logged"] }

/-- The `PARTIALLY_PROCESSED --completion_threshold_met--> READY` rule
(lines 179-188). -/
def rulePartiallyProcessed : StateTransition :=
  { fromState := .inl .partiallyProcessed
    trigger := .completionThresholdMet
    toState := .inl .ready
    requiredPermissions := ["system"]
    preconditions := ["completion_90_percent", "no_blocked_images"]
    postconditions := ["document_ready_for_reasoning"] }

/-- The `IMAGE_EXTRACTED --hash_generated--> HASHED` rule (lines
193-202). -/
def ruleImageExtracted : StateTransition :=
  { fromState := .inr .imageExtracted
    trigger := .hashGenerated
    toState := .inr .hashed
    requiredPermissions := ["system"]
    preconditions := ["perceptual_hash_computed"]
    postconditions := ["hash_stored"] }

/-- The `HASHED --duplicate_analysis_complete--> DUPLICATE_CHECKED` rule
(lines 203-212). -/
def ruleHashed : StateTransition :=
  { fromState := .inr .hashed
    trigger := .duplicateAnalysisComplete
    toState := .inr .duplicateChecked
    requiredPermissions := ["system"]
    preconditions := ["similarity_analysis_complete"]
    postconditions := ["duplicate_status_determined"] }

/-- The document transition table (state_machine.py, lines 138-189):
`self.document_transitions`, a dict from state to a dict from trigger to
rule, embedded as an optional association list per from-state. -/
def documentTransitions (s : PipelineDocumentState) :
    Option (List (TransitionTrigger × StateTransition)) :=
  match s with
  | .ingested => some [(.normalizationComplete, ruleIngested)]
  | .normalized => some [(.extractionComplete, ruleNormalized)]
  | .textExtracted => some [(.extractionComplete, ruleTextExtracted)]
  | .imagesExtracted => some [(.completionThresholdMet, ruleImagesExtracted)]
  | .partiallyProcessed => some [(.completionThresholdMet, rulePartiallyProcessed)]
  | _ => none

/-- The image transition table (state_machine.py, lines 192-213). -/
def imageTransitions (s : PipelineImageState) :
    Option (List (TransitionTrigger × StateTransition)) :=
  match s with
  | .imageExtracted => some [(.hashGenerated, ruleImageExtracted)]
  | .hashed => some [(.duplicateAnalysisComplete, ruleHashed)]
  | _ => none

/-- The table used for a given from-state: `document_transitions` when the
state is a document state (`isinstance(from_state, PipelineDocumentState)`),
`image_transitions` otherwise (validate_transition, lines 239-242). -/
def transitionsFor : PipelineState →
    Option (List (TransitionTrigger × StateTransition))
  | .inl d => documentTransitions d
  | .inr i => imageTransitions i

/-- Association-list lookup: `transitions_map[from_state][trigger]`. -/
def lookupTrigger (t : TransitionTrigger) :
    List (TransitionTrigger × StateTransition) → Option StateTransition
  | [] => none
  | (k, v) :: rest => if k = t then some v else lookupTrigger t rest

/-- One precondition check of `_validate_preconditions` (state_machine.py,
lines 316-344): only the two completion-threshold condition names are
interpreted; any other name is ignored. -/
def checkPrecondition (context : TransitionContext) (condition : String) :
    Except StateTransitionErr Unit :=
  if condition = "completion_90_percent" then
    match context.completionPercentage with
    | none => .error { errorCode := "COMPLETION_THRESHOLD_NOT_MET"
                       requiredPercentage := some 90
                       actualPercentage := none }
    | some p =>
      if p < 90 then
        .error { errorCode := "COMPLETION_THRESHOLD_NOT_MET"
                 requiredPercentage := some 90
                 actualPercentage := some p }
      else .ok ()
  else if condition = "completion_70_percent" then
    match context.completionPercentage with
    | none => .error { errorCode := "COMPLETION_THRESHOLD_NOT_MET"
                       requiredPercentage := some 70
                       actualPercentage := none }
    | some p =>
      if p < 70 then
        .error { errorCode := "COMPLETION_THRESHOLD_NOT_MET"
                 requiredPercentage := some 70
                 actualPercentage := some p }
      else .ok ()
  else .ok ()

/-- `_validate_preconditions`: the `for condition in transition.preconditions`
loop; the first failing condition raises. -/
def validatePreconditionsList (context : TransitionContext) :
    List String → Except StateTransitionErr Unit
  | [] => .ok ()
  | c :: rest =>
    match checkPrecondition context c with
    | .error e => .error e
    | .ok _ => validatePreconditionsList context rest

/-- `PipelineStateValidator.validate_transition` (state_machine.py, lines
215-314).  The `to_state` comparison is Python `!=` on `str`-mixin enum
members, i.e. comparison of the states' string values. -/
def validateTransition (context : TransitionContext) (fromState : PipelineState)
    (trigger : TransitionTrigger) (toState : PipelineState) :
    Except StateTransitionErr Bool :=
  match transitionsFor fromState with
  | none => .error { message := "Invalid from_state"
                     errorCode := "INVALID_FROM_STATE" }
  | some triggerMap =>
    match lookupTrigger trigger triggerMap with
    | none => .error { message := "Invalid transition"
                       errorCode := "INVALID_TRANSITION"
                       validTriggers := triggerMap.map Prod.fst }
    | some transition =>
      if stateVal transition.toState = stateVal toState then
        match (if transition.validationRequired then
                validatePreconditionsList context transition.preconditions
              else .ok ()) with
        | .error e => .error e
        | .ok _ => .ok true
      else
        .error { message := "Target state mismatch"
                 errorCode := "TARGET_STATE_MISMATCH" }

/-- The `datetime` values the audit path stores (only the constant
`datetime(2024, 1, 1)` ever occurs there, a date at midnight). -/
structure PyDateTime where
  year : ℕ
  month : ℕ
  day : ℕ
deriving DecidableEq, Repr

/-- `AuditEvent` as constructed by `_execute_transition_with_audit`
(state_machine.py, lines 442-460). -/
structure AuditEvent where
  uuid : ℕ
  eventType : String
  eventName : String
  eventDescription : String
  actorType : String
  actorId : String
  resourceType : String
  resourceId : String
  actionTaken : String
  eventTimestamp : PyDateTime
  developmentPhase : String
  rulesetVersion : String
  createdAt : PyDateTime
  timezone : String
  enforcementMode : String
  impactLevel : String
deriving DecidableEq, Repr

/-- `TransitionResult` (state_machine.py, lines 111-120). -/
structure TransitionResult where
  success : Bool
  fromState : PipelineState
  toState : PipelineState
  trigger : TransitionTrigger
  auditEventId : Option ℕ := none
  errorMessage : Option String := none
  completionPercentage : Option ℚ := none
deriving DecidableEq, Repr

/-- Python truthiness of an `Optional[str]`: `None` and `""` are falsy. -/
def optStrTruthy : Option String → Bool
  | none => false
  | some s => s ≠ ""

/-- `_execute_transition_with_audit` (state_machine.py, lines 431-480): the
audit event it adds to the session and the `TransitionResult` it returns.
`uuid` stands for the fresh `uuid.uuid4()`; both timestamps are the literal
`datetime(2024, 1, 1)` of lines 453 and 456. -/
def executeTransitionWithAudit (uuid : ℕ) (context : TransitionContext)
    (fromState : PipelineState) (trigger : TransitionTrigger)
    (toState : PipelineState) : TransitionResult × AuditEvent :=
  let baseDescription :=
    "State transition: " ++ stateVal fromState ++ " -> " ++ stateVal toState
  let audit : AuditEvent :=
    { uuid := uuid
      eventType := "state_transition"
      eventName := context.entityType ++ "_state_change"
      eventDescription :=
        match context.overrideReason with
        | some r => if r ≠ "" then baseDescription ++ " | Override: " ++ r
                    else baseDescription
        | none => baseDescription
      actorType := if optStrTruthy context.userId then "user"
                   else "pipeline_system"
      actorId := match context.userId with
                 | some s => if s ≠ "" then s else "pipeline_executor"
                 | none => "pipeline_executor"
      resourceType := context.entityType
      resourceId := context.entityId
      actionTaken := "state_transition"
      eventTimestamp := ⟨2024, 1, 1⟩
      developmentPhase := "pipeline_execution"
      rulesetVersion := "3.2A.0"
      createdAt := ⟨2024, 1, 1⟩
      timezone := "UTC"
      enforcementMode := "production"
      impactLevel := if optStrTruthy context.overrideReason then "high"
                     else "medium" }
  ({ success := true
     fromState := fromState
     toState := toState
     trigger := trigger
     auditEventId := some uuid
     completionPercentage := context.completionPercentage }, audit)

/-- `PipelineStateExecutor.execute_transition` (state_machine.py, lines
362-429): validates first; a `StateTransitionError` from validation is
re-raised unchanged (lines 411-412) before any session work, so the list of
audit events written is empty on a validation error. -/
def executeTransition (context : TransitionContext) (fromState : PipelineState)
    (trigger : TransitionTrigger) (toState : PipelineState) (uuid : ℕ) :
    Except StateTransitionErr TransitionResult × List AuditEvent :=
  match validateTransition context fromState trigger toState with
  | .error e => (.error e, [])
  | .ok _ =>
    let (result, audit) :=
      executeTransitionWithAudit uuid context fromState trigger toState
    (.ok result, [audit])

/-! ## completion_calculator.py -/

/-- `DiagramType` (completion_calculator.py, lines 33-37). -/
inductive DiagramType
  | critical
  | supporting
  | decorative
deriving DecidableEq, Repr

/-- `DocumentCompletionCalculator.DIAGRAM_WEIGHTS` (lines 94-98). -/
def DIAGRAM_WEIGHTS : DiagramType → ℚ
  | .critical => 2
  | .supporting => 1
  | .decorative => 1 / 10

/-- `READY_THRESHOLD` (line 89). -/
def READY_THRESHOLD : ℚ := 90

/-- `PARTIALLY_PROCESSED_THRESHOLD` (line 90). -/
def PARTIALLY_PROCESSED_THRESHOLD : ℚ := 70

/-- `CRITICAL_COMPLETION_REQUIRED` (line 91). -/
def CRITICAL_COMPLETION_REQUIRED : ℚ := 100

/-- `COMPLETE_STATES` (lines 101-106). -/
def COMPLETE_STATES : List PipelineImageState :=
  [.ready, .duplicateLinked, .ignored, .canonicalized]

/-- `BLOCKING_STATES` (lines 109-112).  The source writes
`{PipelineImageState.NEEDS_HITL, PipelineImageState.BLOCKED}`, but
`PipelineImageState` has no `BLOCKED` member (see its definition above), so
the only image state of this set that an image can actually carry is
`NEEDS_HITL`; the member set over the actual image-state type is therefore
the singleton below. -/
def BLOCKING_STATES : List PipelineImageState := [.needsHitl]

/-- `ImageCompletionStatus` (completion_calculator.py, lines 40-49). -/
structure ImageCompletionStatus where
  imageId : String
  state : PipelineImageState
  diagramType : DiagramType
  completionWeight : ℚ
  isComplete : Bool
deriving DecidableEq, Repr

/-- `DocumentCompletionMetrics` (completion_calculator.py, lines 52-66).
The `completion_details` dict (three derived categorizations used only for
reporting) is elided. -/
structure DocumentCompletionMetrics where
  documentId : String
  totalImages : ℕ
  completedImages : ℕ
  completionPercentage : ℚ
  criticalImagesTotal : ℕ
  criticalImagesComplete : ℕ
  criticalCompletionPercentage : ℚ
  weightedCompletion : ℚ
  blockedImages : ℕ
  processingTimeHours : ℚ
  recommendedState : PipelineDocumentState
deriving DecidableEq, Repr

/-- `DocumentCompletionCalculator._calculate_metrics` (lines 223-278).
`processing_time_hours` is the hardcoded `2.5` of line 259 (a `TODO` in the
source).  `recommended_state` is the `IMAGES_EXTRACTED` placeholder of line
272, overwritten by the caller. -/
def calculateMetrics (documentId : String)
    (images : List ImageCompletionStatus) : DocumentCompletionMetrics :=
  let totalImages := images.length
  let completedImages := (images.filter (fun img => img.isComplete)).length
  let criticalImages :=
    images.filter (fun img => img.diagramType = DiagramType.critical)
  let criticalTotal := criticalImages.length
  let criticalComplete :=
    (criticalImages.filter (fun img => img.isComplete)).length
  let completionPercentage : ℚ :=
    if 0 < totalImages then (completedImages : ℚ) / (totalImages : ℚ) * 100
    else 100
  let criticalCompletionPercentage : ℚ :=
    if 0 < criticalTotal then (criticalComplete : ℚ) / (criticalTotal : ℚ) * 100
    else 100
  let totalWeight : ℚ := (images.map (fun img => img.completionWeight)).sum
  let completedWeight : ℚ :=
    ((images.filter (fun img => img.isComplete)).map
      (fun img => img.completionWeight)).sum
  let weightedCompletion : ℚ :=
    if 0 < totalWeight then completedWeight / totalWeight * 100 else 100
  let blockedImages :=
    (images.filter (fun img => img.state ∈ BLOCKING_STATES)).length
  { documentId := documentId
    totalImages := totalImages
    completedImages := completedImages
    completionPercentage := completionPercentage
    criticalImagesTotal := criticalTotal
    criticalImagesComplete := criticalComplete
    criticalCompletionPercentage := criticalCompletionPercentage
    weightedCompletion := weightedCompletion
    blockedImages := blockedImages
    processingTimeHours := 5 / 2
    recommendedState := .imagesExtracted }

/-- `DocumentCompletionCalculator._determine_document_state` (lines
280-315). -/
def determineDocumentState (metrics : DocumentCompletionMetrics) :
    PipelineDocumentState :=
  if 0 < metrics.blockedImages then .blocked
  else if 24 ≤ metrics.processingTimeHours then .blocked
  else if READY_THRESHOLD ≤ metrics.completionPercentage ∧
          CRITICAL_COMPLETION_REQUIRED ≤ metrics.criticalCompletionPercentage
  then .ready
  else if PARTIALLY_PROCESSED_THRESHOLD ≤ metrics.completionPercentage ∧
          CRITICAL_COMPLETION_REQUIRED ≤ metrics.criticalCompletionPercentage
  then .partiallyProcessed
  else .imagesExtracted

/-- `DocumentCompletionCalculator._create_no_images_metrics` (lines
317-336). -/
def createNoImagesMetrics (documentId : String) : DocumentCompletionMetrics :=
  { documentId := documentId
    totalImages := 0
    completedImages := 0
    completionPercentage := 100
    criticalImagesTotal := 0
    criticalImagesComplete := 0
    criticalCompletionPercentage := 100
    weightedCompletion := 100
    blockedImages := 0
    processingTimeHours := 0
    recommendedState := .ready }

/-- `DocumentCompletionCalculator.calculate_completion` (lines 120-174),
with the image store (`_get_document_images`, a mock in the source) passed
in as the list of images: empty list means the no-images metrics, otherwise
the computed metrics with `recommended_state` filled in by
`_determine_document_state`. -/
def calculateCompletion (documentId : String)
    (images : List ImageCompletionStatus) : DocumentCompletionMetrics :=
  if images.isEmpty then createNoImagesMetrics documentId
  else
    let metrics := calculateMetrics documentId images
    { metrics with recommendedState := determineDocumentState metrics }

/-! ## coordination.py -/

/-- `SimilarityLevel` (coordination.py, lines 36-40). -/
inductive SimilarityLevel
  | duplicate
  | nearDuplicate
  | unique
deriving DecidableEq, Repr

/-- `DiagramClassification` (coordination.py, lines 43-51). -/
structure DiagramClassification where
  imageId : String
  diagramType : DiagramType
  confidence : ℚ
  classificationReason : String
  autoClassified : Bool
  requiresHitl : Bool := false
deriving DecidableEq, Repr

/-- `SimilarityAnalysis` (coordination.py, lines 54-63); the
`analysis_metadata` dict is elided. -/
structure SimilarityAnalysis where
  imageId : String
  similarityLevel : SimilarityLevel
  similarityScore : ℚ
  canonicalMatchId : Option String := none
  canonicalDescription : Option String := none
  requiresHitl : Bool := false
deriving DecidableEq, Repr

/-- `CoordinationDecision` (coordination.py, lines 66-76). -/
structure CoordinationDecision where
  imageId : String
  recommendedState : PipelineImageState
  recommendedTrigger : TransitionTrigger
  diagramClassification : DiagramClassification
  similarityAnalysis : SimilarityAnalysis
  processingPriority : String
  hitlTaskRequired : Bool
  reasoning : String
deriving DecidableEq, Repr

/-- `DiagramClassifier.HIGH_CONFIDENCE_THRESHOLD` (line 98). -/
def HIGH_CONFIDENCE_THRESHOLD : ℚ := 85 / 100

/-- `DiagramClassifier.MEDIUM_CONFIDENCE_THRESHOLD` (line 99). -/
def MEDIUM_CONFIDENCE_THRESHOLD : ℚ := 65 / 100

/-- `DiagramClassifier._apply_classification_rules` (coordination.py, lines
180-251).  The two `_check_patterns` regex scores over the extracted text
(fractions of `CRITICAL_PATTERNS` / `DECORATIVE_PATTERNS` matched, `0` for
empty text) and the `any(word in extracted_text for word in [...])` test of
Rule 2 are the text-analysis inputs `criticalScore`, `decorativeScore` and
`hasTitleWord`; the classification logic downstream of them is embedded in
full. -/
def applyClassificationRules (imageId : String)
    (criticalScore decorativeScore : ℚ) (hasTitleWord : Bool)
    (pageNumber : ℤ) (fileSizeKb aspect : ℚ) : DiagramClassification :=
  let confidence₀ : ℚ := if 0 < criticalScore then criticalScore * (4 / 10) else 0
  let confidence : ℚ :=
    if pageNumber ≤ 1 ∧ hasTitleWord then confidence₀ + 3 / 10 else confidence₀
  if 0 < decorativeScore then
    { imageId := imageId
      diagramType := .decorative
      confidence := min decorativeScore (95 / 100)
      classificationReason := "Decorative patterns detected"
      autoClassified := MEDIUM_CONFIDENCE_THRESHOLD ≤ decorativeScore
      requiresHitl := decorativeScore < MEDIUM_CONFIDENCE_THRESHOLD }
  else if fileSizeKb < 10 ∨ 10 < aspect ∨ aspect < 1 / 10 then
    { imageId := imageId
      diagramType := .decorative
      confidence := 8 / 10
      classificationReason := "Size/aspect ratio indicates decorative element"
      autoClassified := true
      requiresHitl := false }
  else if HIGH_CONFIDENCE_THRESHOLD ≤ confidence then
    { imageId := imageId
      diagramType := .critical
      confidence := min confidence (95 / 100)
      classificationReason := "Critical classification"
      autoClassified := true
      requiresHitl := false }
  else if MEDIUM_CONFIDENCE_THRESHOLD ≤ confidence then
    { imageId := imageId
      diagramType := .critical
      confidence := min confidence (95 / 100)
      classificationReason := "Critical classification"
      autoClassified := false
      requiresHitl := true }
  else
    { imageId := imageId
      diagramType := .supporting
      confidence := min confidence (95 / 100)
      classificationReason := "Default supporting classification"
      autoClassified := 3 / 10 < confidence
      requiresHitl := ¬(3 / 10 < confidence) }

/-- `SimilarityAnalyzer.DUPLICATE_THRESHOLD` (line 279). -/
def DUPLICATE_THRESHOLD : ℚ := 95

/-- `SimilarityAnalyzer.NEAR_DUPLICATE_THRESHOLD` (line 280). -/
def NEAR_DUPLICATE_THRESHOLD : ℚ := 80

/-- `SimilarityAnalyzer._calculate_mock_similarity` (coordination.py, lines
373-386).  `hashInt` is `int(hashlib.md5(perceptual_hash.encode()).hexdigest()[:8], 16)`;
the md5 step is external to the embedding. -/
def calculateMockSimilarity (hashInt : ℕ) : ℚ :=
  let baseScore := hashInt % 100
  if 75 ≤ baseScore ∧ baseScore ≤ 85 then (baseScore : ℚ) + 10
  else if 90 ≤ baseScore ∧ baseScore ≤ 95 then (baseScore : ℚ) + 5
  else (baseScore : ℚ)

/-- The `SimilarityAnalysis` returned by `analyze_similarity`'s
`except Exception` handler (coordination.py, lines 364-371): level UNIQUE,
score `0.0`, no canonical match, `requires_hitl=False`. -/
def similarityErrorFallback (imageId : String) : SimilarityAnalysis :=
  { imageId := imageId
    similarityLevel := .unique
    similarityScore := 0
    canonicalMatchId := none
    canonicalDescription := none
    requiresHitl := false }

/-- `SimilarityAnalyzer.analyze_similarity` (coordination.py, lines
286-371).  In the DUPLICATE branch (line 313) and NEAR_DUPLICATE branch
(line 318) the source evaluates `f"canonical_{hash(perceptual_hash)[:8]}"`;
`hash(...)` is an `int` and subscripting an `int` raises `TypeError`, which
the function's own `except Exception` handler (line 355) turns into the
UNIQUE fallback analysis.  Only the `score < 80` branch completes
normally. -/
def analyzeSimilarity (imageId : String) (hashInt : ℕ) : SimilarityAnalysis :=
  let similarityScore := calculateMockSimilarity hashInt
  if DUPLICATE_THRESHOLD ≤ similarityScore then
    similarityErrorFallback imageId
  else if NEAR_DUPLICATE_THRESHOLD ≤ similarityScore then
    similarityErrorFallback imageId
  else
    { imageId := imageId
      similarityLevel := .unique
      similarityScore := similarityScore
      canonicalMatchId := none
      canonicalDescription := none
      requiresHitl := false }

/-- `PipelineCoordinator._make_coordination_decision` (coordination.py,
lines 466-519). -/
def makeCoordinationDecision (classification : DiagramClassification)
    (similarity : SimilarityAnalysis) : CoordinationDecision :=
  let (recommendedState, recommendedTrigger, hitlRequired, reasoning) :
      PipelineImageState × TransitionTrigger × Bool × String :=
    match similarity.similarityLevel with
    | .duplicate =>
      (.duplicateLinked, .duplicateAnalysisComplete, false,
        "Exact duplicate - auto-linking to canonical")
    | .nearDuplicate =>
      (.needsHitl, .duplicateAnalysisComplete, true,
        "Near-duplicate - human decision required")
    | .unique =>
      if classification.requiresHitl then
        (.needsHitl, .visionAnalysisComplete, true,
          "Unique diagram requiring classification confirmation")
      else
        (.needsInterpretation, .duplicateAnalysisComplete, false,
          "Unique diagram - standard processing")
  let processingPriority :=
    if classification.diagramType = DiagramType.critical then "CRITICAL"
    else if similarity.similarityLevel = SimilarityLevel.duplicate ∨
            classification.diagramType = DiagramType.supporting then "STANDARD"
    else "LOW"
  { imageId := classification.imageId
    recommendedState := recommendedState
    recommendedTrigger := recommendedTrigger
    diagramClassification := classification
    similarityAnalysis := similarity
    processingPriority := processingPriority
    hitlTaskRequired := hitlRequired
    reasoning := reasoning }

/-- `PipelineCoordinator._create_fallback_decision` (coordination.py, lines
521-551). -/
def createFallbackDecision (imageId errorMessage : String) :
    CoordinationDecision :=
  { imageId := imageId
    recommendedState := .needsHitl
    recommendedTrigger := .manualOverride
    diagramClassification :=
      { imageId := imageId
        diagramType := .supporting
        confidence := 0
        classificationReason := "Fallback due to error: " ++ errorMessage
        autoClassified := false
        requiresHitl := true }
    similarityAnalysis :=
      { imageId := imageId
        similarityLevel := .unique
        similarityScore := 0
        canonicalMatchId := none
        canonicalDescription := none
        requiresHitl := true }
    processingPriority := "STANDARD"
    hitlTaskRequired := true
    reasoning := "Fallback decision due to coordination error: " ++ errorMessage }

/-- `PipelineCoordinator.coordinate_image_processing` (coordination.py,
lines 403-464).  `classResult` is the outcome of
`classify_diagram` (`.error` when it raised `ClassificationError`, the one
exception the body can see: `analyze_similarity` catches its own failures
internally and always returns).  Any exception inside the `try` lands in
the `except Exception` handler, which returns the fallback decision. -/
def coordinateImageProcessing (imageId : String)
    (classResult : Except String DiagramClassification) (hashInt : ℕ) :
    CoordinationDecision :=
  match classResult with
  | .error errorMessage => createFallbackDecision imageId errorMessage
  | .ok classification =>
    makeCoordinationDecision classification (analyzeSimilarity imageId hashInt)

/-! ## resource_manager.py

Timestamps are rationals counted in minutes; `now` stands for
`datetime.utcnow()` at the operation.  Fresh ids (the source draws them
from `IDService().generate_id()`) come from the `nextId` counter in the
state.  Python dicts keep insertion order, so the two allocation dicts are
association lists ordered by insertion and keyed by the allocation id;
deques grow at the right (`append`) with the front at the head of the
list (`appendleft` is `cons`). -/

/-- `ProcessingType` (resource_manager.py, lines 40-45). -/
inductive ProcessingType
  | gpuInterpretation
  | ocrExtraction
  | similarityAnalysis
  | hitlReview
deriving DecidableEq, Repr

/-- `Priority` (resource_manager.py, lines 48-52). -/
inductive Priority
  | critical
  | standard
  | low
deriving DecidableEq, Repr

/-- `ProcessingRequest` (resource_manager.py, lines 63-77); the fields read
by the allocation, refill and starvation logic.  `created_at` and
`timeout_at` are minutes. -/
structure ProcessingRequest where
  requestId : ℕ
  documentId : String
  imageId : String
  processingType : ProcessingType
  priority : Priority
  diagramType : DiagramType
  estimatedDurationMinutes : ℚ
  createdAt : ℚ
  timeoutAt : ℚ
deriving DecidableEq, Repr

/-- `ResourceAllocation` (resource_manager.py, lines 80-90). -/
structure ResourceAllocation where
  allocationId : ℕ
  processingType : ProcessingType
  requestId : ℕ
  documentId : String
  imageId : String
  allocatedAt : ℚ
  estimatedCompletion : ℚ
deriving DecidableEq, Repr

/-- `MAX_GPU_SLOTS` (line 130). -/
def MAX_GPU_SLOTS : ℕ := 5

/-- `MAX_OCR_SLOTS` (line 131). -/
def MAX_OCR_SLOTS : ℕ := 10

/-- `DOCUMENT_TIMEOUT_HOURS` (line 132). -/
def DOCUMENT_TIMEOUT_HOURS : ℚ := 24

/-- `MAX_QUEUE_DEPTH` (line 133). -/
def MAX_QUEUE_DEPTH : ℕ := 100

/-- `PROCESSING_ESTIMATES` (lines 136-141), minutes. -/
def PROCESSING_ESTIMATES : ProcessingType → ℚ
  | .gpuInterpretation => 8
  | .ocrExtraction => 2
  | .similarityAnalysis => 1
  | .hitlReview => 60

/-- `STARVATION_PREVENTION_MINUTES` (lines 144-148). -/
def STARVATION_PREVENTION_MINUTES : Priority → ℚ
  | .critical => 30
  | .standard => 120
  | .low => 480

/-- `ResourceExhaustionError` (resource_manager.py, lines 110-115). -/
structure ResourceExhaustionErr where
  message : String := ""
  errorCode : String
deriving DecidableEq, Repr

/-- The mutable state of a `ResourceManager` instance (lines 150-170):
allocation dicts, priority deques, document start times and the freshness
counter standing for the external id generator. -/
structure ResourceManagerState where
  gpuAllocations : List ResourceAllocation
  ocrAllocations : List ResourceAllocation
  criticalQueue : List ProcessingRequest
  standardQueue : List ProcessingRequest
  lowQueue : List ProcessingRequest
  documentStartTimes : List (String × ℚ)
  timedOutDocuments : List String
  nextId : ℕ
deriving DecidableEq, Repr

/-- A fresh `ResourceManager` (its `__init__`). -/
def initialResourceManagerState : ResourceManagerState :=
  { gpuAllocations := []
    ocrAllocations := []
    criticalQueue := []
    standardQueue := []
    lowQueue := []
    documentStartTimes := []
    timedOutDocuments := []
    nextId := 0 }

/-- `_can_allocate_immediately` (resource_manager.py, lines 411-419). -/
def canAllocateImmediately (pt : ProcessingType)
    (s : ResourceManagerState) : Bool :=
  match pt with
  | .gpuInterpretation => s.gpuAllocations.length < MAX_GPU_SLOTS
  | .ocrExtraction => s.ocrAllocations.length < MAX_OCR_SLOTS
  | _ => true

/-- `if document_id not in self.document_start_times: ... = now` (lines
450-451 and 501-502). -/
def trackDocumentStart (documentId : String) (now : ℚ)
    (times : List (String × ℚ)) : List (String × ℚ) :=
  if (times.lookup documentId).isSome then times else times ++ [(documentId, now)]

/-- `_allocate_resource` (resource_manager.py, lines 421-459): draws a
fresh id, records the allocation in the dict of its processing type (other
types are stored in neither dict), tracks the document start time, and
returns the allocation id. -/
def allocateResource (documentId imageId : String) (pt : ProcessingType)
    (now : ℚ) (s : ResourceManagerState) : ℕ × ResourceManagerState :=
  let allocationId := s.nextId
  let allocation : ResourceAllocation :=
    { allocationId := allocationId
      processingType := pt
      requestId := allocationId
      documentId := documentId
      imageId := imageId
      allocatedAt := now
      estimatedCompletion := now + PROCESSING_ESTIMATES pt }
  let s' : ResourceManagerState :=
    { s with
      nextId := s.nextId + 1
      documentStartTimes := trackDocumentStart documentId now s.documentStartTimes }
  match pt with
  | .gpuInterpretation =>
    (allocationId, { s' with gpuAllocations := s'.gpuAllocations ++ [allocation] })
  | .ocrExtraction =>
    (allocationId, { s' with ocrAllocations := s'.ocrAllocations ++ [allocation] })
  | _ => (allocationId, s')

/-- `_queue_request` (resource_manager.py, lines 461-512): raises
`QUEUE_EXHAUSTED` when the total depth has reached `MAX_QUEUE_DEPTH`,
otherwise appends a fresh request to the deque of its priority. -/
def queueRequest (documentId imageId : String) (pt : ProcessingType)
    (priority : Priority) (diagramType : DiagramType) (now : ℚ)
    (s : ResourceManagerState) :
    Except ResourceExhaustionErr (ℕ × ResourceManagerState) :=
  let totalQueueDepth :=
    s.criticalQueue.length + s.standardQueue.length + s.lowQueue.length
  if MAX_QUEUE_DEPTH ≤ totalQueueDepth then
    .error { message := "Queue full", errorCode := "QUEUE_EXHAUSTED" }
  else
    let requestId := s.nextId
    let request : ProcessingRequest :=
      { requestId := requestId
        documentId := documentId
        imageId := imageId
        processingType := pt
        priority := priority
        diagramType := diagramType
        estimatedDurationMinutes := PROCESSING_ESTIMATES pt
        createdAt := now
        timeoutAt := now + DOCUMENT_TIMEOUT_HOURS * 60 }
    let s' : ResourceManagerState :=
      { s with
        nextId := s.nextId + 1
        documentStartTimes := trackDocumentStart documentId now s.documentStartTimes }
    let s'' : ResourceManagerState :=
      match priority with
      | .critical => { s' with criticalQueue := s'.criticalQueue ++ [request] }
      | .standard => { s' with standardQueue := s'.standardQueue ++ [request] }
      | .low => { s' with lowQueue := s'.lowQueue ++ [request] }
    .ok (requestId, s'')

/-- `request_processing` (resource_manager.py, lines 172-256).  The entire
body runs inside `try: ... except Exception as e:` with no preceding
`except ResourceExhaustionError: raise` clause, so the `QUEUE_EXHAUSTED`
error raised by `_queue_request` is itself caught at line 238 and re-raised
as a new `ResourceExhaustionError` with error code
`RESOURCE_REQUEST_FAILED` (lines 248-256). -/
def requestProcessing (documentId imageId : String) (pt : ProcessingType)
    (priority : Priority) (diagramType : DiagramType) (now : ℚ)
    (s : ResourceManagerState) :
    Except ResourceExhaustionErr ℕ × ResourceManagerState :=
  if canAllocateImmediately pt s then
    let (allocationId, s') := allocateResource documentId imageId pt now s
    (.ok allocationId, s')
  else
    match queueRequest documentId imageId pt priority diagramType now s with
    | .ok (requestId, s') => (.ok requestId, s')
    | .error _ =>
      (.error { message := "Resource request failed"
                errorCode := "RESOURCE_REQUEST_FAILED" }, s)

/-- Find and remove the allocation stored under a request id
(`self.gpu_allocations.pop(request_id)` on an ordered dict). -/
def popAllocation (requestId : ℕ) :
    List ResourceAllocation → Option (ResourceAllocation × List ResourceAllocation)
  | [] => none
  | a :: rest =>
    if a.allocationId = requestId then some (a, rest)
    else
      match popAllocation requestId rest with
      | none => none
      | some (found, rest') => some (found, a :: rest')

/-- First queued request of a processing type, and the queue without it:
the `for request in list(queue): if request.processing_type == ...:
queue.remove(request)` scan of `_process_next_queued_request`. -/
def extractFirstMatching (pt : ProcessingType) :
    List ProcessingRequest → Option (ProcessingRequest × List ProcessingRequest)
  | [] => none
  | r :: rest =>
    if r.processingType = pt then some (r, rest)
    else
      match extractFirstMatching pt rest with
      | none => none
      | some (found, rest') => some (found, r :: rest')

/-- `_process_next_queued_request` (resource_manager.py, lines 514-534):
scan the critical, then standard, then low queue in order, allocate the
first request whose processing type matches (unconditionally — the caller
has just freed a slot of that type). -/
def processNextQueuedRequest (pt : ProcessingType) (now : ℚ)
    (s : ResourceManagerState) : Option ℕ × ResourceManagerState :=
  match extractFirstMatching pt s.criticalQueue with
  | some (request, rest) =>
    let (allocationId, s') :=
      allocateResource request.documentId request.imageId
        request.processingType now { s with criticalQueue := rest }
    (some allocationId, s')
  | none =>
    match extractFirstMatching pt s.standardQueue with
    | some (request, rest) =>
      let (allocationId, s') :=
        allocateResource request.documentId request.imageId
          request.processingType now { s with standardQueue := rest }
      (some allocationId, s')
    | none =>
      match extractFirstMatching pt s.lowQueue with
      | some (request, rest) =>
        let (allocationId, s') :=
          allocateResource request.documentId request.imageId
            request.processingType now { s with lowQueue := rest }
        (some allocationId, s')
      | none => (none, s)

/-- `release_resource` (resource_manager.py, lines 258-308): pop the
allocation from the GPU dict, else the OCR dict; unknown ids return
`False`; then refill from the queues for the popped allocation's
processing type. -/
def releaseResource (requestId : ℕ) (now : ℚ) (s : ResourceManagerState) :
    Bool × ResourceManagerState :=
  match popAllocation requestId s.gpuAllocations with
  | some (allocation, rest) =>
    let (_, s') := processNextQueuedRequest allocation.processingType now
      { s with gpuAllocations := rest }
    (true, s')
  | none =>
    match popAllocation requestId s.ocrAllocations with
    | some (allocation, rest) =>
      let (_, s') := processNextQueuedRequest allocation.processingType now
        { s with ocrAllocations := rest }
      (true, s')
    | none => (false, s)

/-- `wait_time_minutes > max_wait` for one queued request (lines 382-385). -/
def starvedAt (now maxWait : ℚ) (r : ProcessingRequest) : Bool :=
  maxWait < now - r.createdAt

/-- `prevent_starvation` (resource_manager.py, lines 365-407).  The loop
walks `[(low_queue, LOW), (standard_queue, STANDARD), (critical_queue,
CRITICAL)]` in that order, snapshotting each deque (`list(queue)`) when it
reaches it; each starved request is removed from its queue and, for LOW and
STANDARD, pushed with `appendleft` onto the front of the next queue up (the
push order reverses the snapshot order at the front); for CRITICAL neither
branch applies, so a starved critical request is removed and re-inserted
nowhere.  Because the standard snapshot is taken after the LOW phase and
the critical snapshot after the STANDARD phase, requests promoted earlier in
the same sweep are examined again. -/
def preventStarvation (now : ℚ) (s : ResourceManagerState) :
    ℕ × ResourceManagerState :=
  let lowStarved := s.lowQueue.filter (starvedAt now (STARVATION_PREVENTION_MINUTES .low))
  let lowKept := s.lowQueue.filter (fun r => ¬ starvedAt now (STARVATION_PREVENTION_MINUTES .low) r)
  let standardAfterLow := lowStarved.reverse ++ s.standardQueue
  let standardStarved := standardAfterLow.filter (starvedAt now (STARVATION_PREVENTION_MINUTES .standard))
  let standardKept := standardAfterLow.filter (fun r => ¬ starvedAt now (STARVATION_PREVENTION_MINUTES .standard) r)
  let criticalAfterStandard := standardStarved.reverse ++ s.criticalQueue
  let criticalStarved := criticalAfterStandard.filter (starvedAt now (STARVATION_PREVENTION_MINUTES .critical))
  let criticalKept := criticalAfterStandard.filter (fun r => ¬ starvedAt now (STARVATION_PREVENTION_MINUTES .critical) r)
  (lowStarved.length + standardStarved.length + criticalStarved.length,
   { s with
     lowQueue := lowKept
     standardQueue := standardKept
     criticalQueue := criticalKept })

/-- One public operation on a `ResourceManager`. -/
inductive ResourceOp
  | request (documentId imageId : String) (pt : ProcessingType)
      (priority : Priority) (diagramType : DiagramType) (now : ℚ)
  | release (requestId : ℕ) (now : ℚ)
  | starvationSweep (now : ℚ)

/-- Apply one operation (discarding the returned value). -/
def applyResourceOp (s : ResourceManagerState) : ResourceOp → ResourceManagerState
  | .request documentId imageId pt priority diagramType now =>
    (requestProcessing documentId imageId pt priority diagramType now s).2
  | .release requestId now => (releaseResource requestId now s).2
  | .starvationSweep now => (preventStarvation now s).2

/-- Run a sequence of operations from a fresh manager. -/
def runResourceOps (ops : List ResourceOp) : ResourceManagerState :=
  ops.foldl applyResourceOp initialResourceManagerState

/-! ## manual_overrides.py -/

/-- `EmergencyLevel` (manual_overrides.py, lines 68-73). -/
inductive EmergencyLevel
  | low
  | medium
  | high
  | critical
deriving DecidableEq, Repr

/-- `OverrideScope` (manual_overrides.py, lines 76-81). -/
inductive OverrideScope
  | singleDocument
  | singleImage
  | documentBatch
  | systemWide
deriving DecidableEq, Repr

/-- `OverrideRequest` (manual_overrides.py, lines 84-116); the fields read
by authorization and validation.  `risk_level` is a plain string in the
source ("low", "medium", "high"). -/
structure OverrideRequest where
  administratorId : ℤ
  emergencyLevel : EmergencyLevel
  scope : OverrideScope
  documentId : Option ℤ := none
  imageId : Option ℤ := none
  documentIds : Option (List ℤ) := none
  targetState : Option String := none
  forceTransition : Bool := false
  justification : String := ""
  expectedOutcome : String := ""
  riskLevel : String := "low"
  rollbackPlan : String := ""
deriving DecidableEq, Repr

/-- The exceptions `request_override` can raise before or instead of the
exceptions of its execution phase: `OverrideValidationError`,
`OverrideAuthorizationError`, `OverrideExecutionError` (manual_overrides.py,
lines 53-65), and Python's builtin `AttributeError` (which none of the
`except` clauses of this module convert). -/
inductive OverrideErr
  | attributeError (message : String)
  | authorizationError (message : String)
  | validationError (message : String)
  | executionError (message : String)
deriving DecidableEq, Repr

/-- Python `str.strip()` (no argument): drop whitespace from both ends.
Defined structurally over the character list so that concrete instances
evaluate in the kernel. -/
def pyStrip (s : String) : String :=
  ⟨((s.data.dropWhile Char.isWhitespace).reverse.dropWhile
      Char.isWhitespace).reverse⟩

/-- `self._min_justification_length` (line 140). -/
def MIN_JUSTIFICATION_LENGTH : ℕ := 100

/-- `self._min_outcome_length` (line 141). -/
def MIN_OUTCOME_LENGTH : ℕ := 50

/-- `self._min_rollback_plan_length` (line 142). -/
def MIN_ROLLBACK_PLAN_LENGTH : ℕ := 50

/-- Python truthiness of an `Optional[int]`: `None` and `0` are falsy. -/
def optIntTruthy : Option ℤ → Bool
  | none => false
  | some n => n ≠ 0

/-- Python truthiness of an `Optional[List[int]]`: `None` and `[]` are
falsy. -/
def optListTruthy : Option (List ℤ) → Bool
  | none => false
  | some l => l ≠ []

/-- `PipelineDocumentState(target_state)` succeeds exactly on these
values. -/
def isValidDocumentStateVal (v : String) : Bool :=
  ["ingested", "normalized", "text_extracted", "images_extracted",
   "partially_processed", "ready", "blocked", "failed"].contains v

/-- `PipelineImageState(target_state)` succeeds exactly on these values. -/
def isValidImageStateVal (v : String) : Bool :=
  ["image_extracted", "hashed", "duplicate_checked", "duplicate_linked",
   "unique", "ignored", "needs_interpretation", "interpreted", "needs_hitl",
   "canonicalized", "ready"].contains v

/-- `_validate_administrator_authorization` (manual_overrides.py, lines
236-268).  The user lookup and the role/permission checks are commented out
("Temporary: Allow all for testing") and `admin_user = None` is the
placeholder of line 244; for a CRITICAL emergency level line 265 then
evaluates `admin_user.is_superuser` on `None`, raising `AttributeError`
for every CRITICAL request, whoever the administrator is. -/
def validateAdministratorAuthorization (r : OverrideRequest) :
    Except OverrideErr Unit :=
  if r.emergencyLevel = EmergencyLevel.critical then
    .error (.attributeError "NoneType object has no attribute is_superuser")
  else .ok ()

/-- `_validate_target_state` (manual_overrides.py, lines 305-323). -/
def validateTargetState (r : OverrideRequest) : Except OverrideErr Unit :=
  if optIntTruthy r.documentId ∧ optStrTruthy r.targetState ∧
      ¬ isValidDocumentStateVal (r.targetState.getD "") then
    .error (.validationError "Invalid document state")
  else if optIntTruthy r.imageId ∧ optStrTruthy r.targetState ∧
      ¬ isValidImageStateVal (r.targetState.getD "") then
    .error (.validationError "Invalid image state")
  else .ok ()

/-- `_validate_override_request` (manual_overrides.py, lines 270-303): the
length checks on the stripped justification, expected outcome and (for
"medium"/"high" risk) rollback plan, then scope/target consistency, then
target-state validity. -/
def validateOverrideRequest (r : OverrideRequest) : Except OverrideErr Unit :=
  if (pyStrip r.justification).length < MIN_JUSTIFICATION_LENGTH then
    .error (.validationError "Justification must be at least 100 characters")
  else if (pyStrip r.expectedOutcome).length < MIN_OUTCOME_LENGTH then
    .error (.validationError "Expected outcome must be at least 50 characters")
  else if (r.riskLevel = "medium" ∨ r.riskLevel = "high") ∧
      (pyStrip r.rollbackPlan).length < MIN_ROLLBACK_PLAN_LENGTH then
    .error (.validationError "Rollback plan required")
  else if r.scope = OverrideScope.singleDocument ∧ ¬ optIntTruthy r.documentId then
    .error (.validationError "Document ID required for single document scope")
  else if r.scope = OverrideScope.singleImage ∧ ¬ optIntTruthy r.imageId then
    .error (.validationError "Image ID required for single image scope")
  else if r.scope = OverrideScope.documentBatch ∧ ¬ optListTruthy r.documentIds then
    .error (.validationError "Document IDs required for batch scope")
  else if optStrTruthy r.targetState then validateTargetState r
  else .ok ()

/-- `request_override` (manual_overrides.py, lines 152-234): authorization,
then request validation, and only then the `log_override_request` audit
write, execution (`execResult` abstracts `_execute_override`, whose
exceptions are caught at line 210), the execution/completion audit writes,
and `OverrideExecutionError` on failure.  The second component counts the
calls to `override_logger.log_override_request`. -/
def requestOverride (r : OverrideRequest) (execResult : Except String Unit) :
    Except OverrideErr Unit × ℕ :=
  match validateAdministratorAuthorization r with
  | .error e => (.error e, 0)
  | .ok _ =>
    match validateOverrideRequest r with
    | .error e => (.error e, 0)
    | .ok _ =>
      match execResult with
      | .ok _ => (.ok (), 1)
      | .error m => (.error (.executionError m), 1)

/-! ## Claim theorems -/

/-- C3: counter to the spec, a mock similarity score of at least 95 does
not yield a DUPLICATE analysis with a canonical match: the DUPLICATE (and
NEAR_DUPLICATE) branches of `analyze_similarity` evaluate
`hash(perceptual_hash)[:8]`, which raises `TypeError` (an `int` is not
subscriptable), and the method's own exception handler returns a UNIQUE
analysis with score `0.0`, no canonical match and `requires_hitl=False`. -/
theorem analyzeSimilarity_high_scores_fall_to_unique (imageId : String)
    (hashInt : ℕ) (h : 95 ≤ calculateMockSimilarity hashInt) :
    analyzeSimilarity imageId hashInt = similarityErrorFallback imageId ∧
    (analyzeSimilarity imageId hashInt).similarityLevel = SimilarityLevel.unique ∧
    (analyzeSimilarity imageId hashInt).canonicalMatchId = none ∧
    (analyzeSimilarity imageId hashInt).requiresHitl = false ∧
    (analyzeSimilarity imageId hashInt).similarityScore = 0 := by
  have hd : DUPLICATE_THRESHOLD ≤ calculateMockSimilarity hashInt := h
  simp [analyzeSimilarity, hd, similarityErrorFallback]

/-- C3 witness: the perceptual hash "phash154" has
`int(md5("phash154").hexdigest()[:8], 16) = 2313252985`, whose mock
similarity score is exactly 95. -/
theorem analyzeSimilarity_high_scores_fall_to_unique_witness :
    95 ≤ calculateMockSimilarity 2313252985 ∧
    (analyzeSimilarity "img-dup" 2313252985).similarityLevel = SimilarityLevel.unique ∧
    (analyzeSimilarity "img-dup" 2313252985).requiresHitl = false := by
  have hms : calculateMockSimilarity 2313252985 = 95 := by
    norm_num [calculateMockSimilarity]
  have h95 : (95 : ℚ) ≤ calculateMockSimilarity 2313252985 := by rw [hms]
  exact ⟨h95,
    (analyzeSimilarity_high_scores_fall_to_unique "img-dup" 2313252985 h95).2.1,
    (analyzeSimilarity_high_scores_fall_to_unique "img-dup" 2313252985 h95).2.2.2.1⟩

/-- The request of the C5 failing input: a LOW-priority GPU request queued
at minute 0. -/
def c5LowRequest : ProcessingRequest :=
  { requestId := 0
    documentId := "doc-starved"
    imageId := "img-starved"
    processingType := .gpuInterpretation
    priority := .low
    diagramType := .supporting
    estimatedDurationMinutes := 8
    createdAt := 0
    timeoutAt := 1440 }

/-- The C5 failing input: a fresh manager whose low queue holds one request
that has waited 481 minutes (past LOW's 480-minute max wait). -/
def c5State : ResourceManagerState :=
  { initialResourceManagerState with lowQueue := [c5LowRequest], nextId := 1 }

/-- A starved CRITICAL-priority request (the other face of the C5 bug). -/
def c5CriticalRequest : ProcessingRequest :=
  { c5LowRequest with requestId := 1, priority := .critical }

/-- A fresh manager whose critical queue holds one request that has waited
31 minutes (past CRITICAL's 30-minute max wait). -/
def c5CriticalState : ResourceManagerState :=
  { initialResourceManagerState with criticalQueue := [c5CriticalRequest], nextId := 2 }

/-- C5: one starvation sweep does not leave a starved LOW request at the
front of the STANDARD queue — it chains the request through STANDARD and
CRITICAL (each queue's snapshot is taken after the previous phase ran, and
the request's wait exceeds every tier's max wait) and finally removes it
from all queues, counting three boosts; a starved CRITICAL request is
likewise removed without re-insertion.  The sweep therefore removes starved
requests from the queues without re-inserting them, and a starved LOW
request is not promoted to STANDARD exactly once. -/
theorem preventStarvation_drops_starved_requests :
    preventStarvation 481 c5State = (3, { initialResourceManagerState with nextId := 1 }) ∧
    (preventStarvation 481 c5State).2.lowQueue = [] ∧
    (preventStarvation 481 c5State).2.standardQueue = [] ∧
    (preventStarvation 481 c5State).2.criticalQueue = [] ∧
    preventStarvation 31 c5CriticalState =
      (1, { initialResourceManagerState with nextId := 2 }) := by
  have h480 : starvedAt 481 (STARVATION_PREVENTION_MINUTES .low) c5LowRequest = true := by
    norm_num [starvedAt, STARVATION_PREVENTION_MINUTES, c5LowRequest]
  have h120 : starvedAt 481 (STARVATION_PREVENTION_MINUTES .standard) c5LowRequest = true := by
    norm_num [starvedAt, STARVATION_PREVENTION_MINUTES, c5LowRequest]
  have h30 : starvedAt 481 (STARVATION_PREVENTION_MINUTES .critical) c5LowRequest = true := by
    norm_num [starvedAt, STARVATION_PREVENTION_MINUTES, c5LowRequest]
  have hc30 : starvedAt 31 (STARVATION_PREVENTION_MINUTES .critical) c5CriticalRequest = true := by
    norm_num [starvedAt, STARVATION_PREVENTION_MINUTES, c5CriticalRequest, c5LowRequest]
  refine ⟨?_, ?_, ?_, ?_, ?_⟩ <;>
    simp [preventStarvation, c5State, c5CriticalState, initialResourceManagerState,
      h480, h120, h30, hc30]

/-- The classification the embedded classifier produces for an image with
no text patterns (both pattern scores 0), page 1, a 5 kB file and aspect
ratio 1: the size rule fires, giving DECORATIVE, auto-classified, no
HITL. -/
def c6Classification : DiagramClassification :=
  applyClassificationRules "img-c6" 0 0 false 1 5 1

/-- C6 counterexample: at an input on which the similarity analysis fails
internally (mock score 95 ≥ 80, so the duplicate branch raises
`TypeError`), while classification succeeds without requiring HITL,
`coordinate_image_processing` does not return the safe fallback decision:
the decision is NEEDS_INTERPRETATION with priority "LOW" and no HITL
task. -/
theorem coordinateImageProcessing_similarity_failure_counterexample :
    (80 ≤ calculateMockSimilarity 2313252985) ∧
    c6Classification.requiresHitl = false ∧
    ¬ ((coordinateImageProcessing "img-c6" (.ok c6Classification) 2313252985).recommendedState =
          PipelineImageState.needsHitl ∧
        (coordinateImageProcessing "img-c6" (.ok c6Classification) 2313252985).processingPriority =
          "STANDARD" ∧
        (coordinateImageProcessing "img-c6" (.ok c6Classification) 2313252985).hitlTaskRequired =
          true) := by
  have hms : calculateMockSimilarity 2313252985 = 95 := by
    norm_num [calculateMockSimilarity]
  have hc : c6Classification =
      { imageId := "img-c6"
        diagramType := .decorative
        confidence := 8 / 10
        classificationReason := "Size/aspect ratio indicates decorative element"
        autoClassified := true
        requiresHitl := false } := by
    norm_num [c6Classification, applyClassificationRules]
  have hdec : (coordinateImageProcessing "img-c6" (.ok c6Classification) 2313252985).recommendedState =
      PipelineImageState.needsInterpretation := by
    simp [coordinateImageProcessing, analyzeSimilarity, hms, hc, makeCoordinationDecision,
      similarityErrorFallback, DUPLICATE_THRESHOLD]
  refine ⟨by rw [hms]; norm_num, by rw [hc], ?_⟩
  intro hcontra
  rw [hdec] at hcontra
  exact absurd hcontra.1 (by simp)

/-- C6 (amended): a classification failure makes
`coordinate_image_processing` return the safe fallback decision
(NEEDS_HITL, STANDARD priority, HITL required) rather than raising; an
internal similarity-analysis failure, by contrast, is caught inside
`analyze_similarity` itself, which returns a UNIQUE analysis with score
`0.0`, so it does not trigger the fallback decision. -/
theorem coordinateImageProcessing_fallback_contract (imageId errorMessage : String)
    (hashInt : ℕ) (classResult : Except String DiagramClassification) :
    (classResult = .error errorMessage →
      (coordinateImageProcessing imageId classResult hashInt).recommendedState =
          PipelineImageState.needsHitl ∧
        (coordinateImageProcessing imageId classResult hashInt).processingPriority =
          "STANDARD" ∧
        (coordinateImageProcessing imageId classResult hashInt).hitlTaskRequired = true) ∧
    (80 ≤ calculateMockSimilarity hashInt →
      analyzeSimilarity imageId hashInt = similarityErrorFallback imageId) := by
  constructor
  · intro h
    subst h
    simp [coordinateImageProcessing, createFallbackDecision]
  · intro h
    by_cases hd : DUPLICATE_THRESHOLD ≤ calculateMockSimilarity hashInt
    · simp [analyzeSimilarity, hd]
    · have hn : NEAR_DUPLICATE_THRESHOLD ≤ calculateMockSimilarity hashInt := h
      simp [analyzeSimilarity, hd, hn]

/-- C6 witness: the fallback-decision contract at a concrete failed
classification, and the internally-caught similarity failure at hash
integer 2313252985 (mock score 95). -/
theorem coordinateImageProcessing_fallback_contract_witness :
    (coordinateImageProcessing "img-w" (.error "boom") 7).recommendedState =
        PipelineImageState.needsHitl ∧
      analyzeSimilarity "img-w" 2313252985 = similarityErrorFallback "img-w" := by
  have hms : calculateMockSimilarity 2313252985 = 95 := by
    norm_num [calculateMockSimilarity]
  exact ⟨((coordinateImageProcessing_fallback_contract "img-w" "boom" 7 (.error "boom")).1 rfl).1,
    (coordinateImageProcessing_fallback_contract "img-w" "err" 2313252985
      (.error "err")).2 (by rw [hms]; norm_num)⟩

/-- C7: `request_override`'s behavior around validation and authorization.
The validation-length contract of the claim holds for non-CRITICAL
emergency levels, and every validation failure happens with zero
`log_override_request` calls; but a CRITICAL emergency-level request —
from any administrator, superuser or not — raises `AttributeError`
(`admin_user` is the `None` placeholder of the disabled authorization
check), not `OverrideAuthorizationError`, before validation and before any
audit write. -/
theorem requestOverride_validation_and_authorization (r : OverrideRequest)
    (execResult : Except String Unit) :
    (r.emergencyLevel = EmergencyLevel.critical →
      requestOverride r execResult =
        (.error (.attributeError "NoneType object has no attribute is_superuser"), 0)) ∧
    (r.emergencyLevel ≠ EmergencyLevel.critical →
      (pyStrip r.justification).length < MIN_JUSTIFICATION_LENGTH →
      requestOverride r execResult =
        (.error (.validationError "Justification must be at least 100 characters"), 0)) ∧
    (r.emergencyLevel ≠ EmergencyLevel.critical →
      MIN_JUSTIFICATION_LENGTH ≤ (pyStrip r.justification).length →
      (pyStrip r.expectedOutcome).length < MIN_OUTCOME_LENGTH →
      requestOverride r execResult =
        (.error (.validationError "Expected outcome must be at least 50 characters"), 0)) ∧
    (r.emergencyLevel ≠ EmergencyLevel.critical →
      MIN_JUSTIFICATION_LENGTH ≤ (pyStrip r.justification).length →
      MIN_OUTCOME_LENGTH ≤ (pyStrip r.expectedOutcome).length →
      (r.riskLevel = "medium" ∨ r.riskLevel = "high") →
      (pyStrip r.rollbackPlan).length < MIN_ROLLBACK_PLAN_LENGTH →
      requestOverride r execResult =
        (.error (.validationError "Rollback plan required"), 0)) ∧
    (MIN_JUSTIFICATION_LENGTH ≤ (pyStrip r.justification).length →
      MIN_OUTCOME_LENGTH ≤ (pyStrip r.expectedOutcome).length →
      ((r.riskLevel = "medium" ∨ r.riskLevel = "high") →
        MIN_ROLLBACK_PLAN_LENGTH ≤ (pyStrip r.rollbackPlan).length) →
      (r.scope = OverrideScope.singleDocument → optIntTruthy r.documentId = true) →
      (r.scope = OverrideScope.singleImage → optIntTruthy r.imageId = true) →
      (r.scope = OverrideScope.documentBatch → optListTruthy r.documentIds = true) →
      r.targetState = none →
      validateOverrideRequest r = .ok ()) := by
  refine ⟨?_, ?_, ?_, ?_, ?_⟩
  · intro hcrit
    simp [requestOverride, validateAdministratorAuthorization, hcrit]
  · intro hnc hlen
    simp [requestOverride, validateAdministratorAuthorization, hnc,
      validateOverrideRequest, hlen]
  · intro hnc hj ho
    simp [requestOverride, validateAdministratorAuthorization, hnc,
      validateOverrideRequest, Nat.not_lt.mpr hj, ho]
  · intro hnc hj ho hrisk hrb
    simp [requestOverride, validateAdministratorAuthorization, hnc,
      validateOverrideRequest, Nat.not_lt.mpr hj, Nat.not_lt.mpr ho, hrisk, hrb]
  · intro hj ho hrb hd hi hb ht
    unfold validateOverrideRequest
    rw [if_neg (Nat.not_lt.mpr hj), if_neg (Nat.not_lt.mpr ho)]
    rw [if_neg (fun hc => absurd hc.2 (Nat.not_lt.mpr (hrb hc.1)))]
    rw [if_neg (fun hc => by rw [hd hc.1] at hc; exact hc.2 rfl)]
    rw [if_neg (fun hc => by rw [hi hc.1] at hc; exact hc.2 rfl)]
    rw [if_neg (fun hc => by rw [hb hc.1] at hc; exact hc.2 rfl)]
    rw [if_neg (by simp [ht, optStrTruthy])]

/-- The C7 failing input: a CRITICAL emergency-level request whose body is
fully valid (120-character justification, 60-character outcome). -/
def c7CriticalRequest : OverrideRequest :=
  { administratorId := 1
    emergencyLevel := .critical
    scope := .systemWide
    justification := String.mk (List.replicate 120 'j')
    expectedOutcome := String.mk (List.replicate 60 'o') }

/-- A LOW-level request with a 40-character justification. -/
def c7ShortRequest : OverrideRequest :=
  { administratorId := 1
    emergencyLevel := .low
    scope := .systemWide
    justification := String.mk (List.replicate 40 'j') }

/-- A LOW-level request with a 100-character justification and a
50-character outcome. -/
def c7ValidRequest : OverrideRequest :=
  { administratorId := 1
    emergencyLevel := .low
    scope := .systemWide
    justification := String.mk (List.replicate 100 'j')
    expectedOutcome := String.mk (List.replicate 50 'o') }

/-- C7 witness: the CRITICAL-level request hits the `AttributeError`; the
40-character justification fails validation with no audit write; the
100/50-character request passes validation. -/
theorem requestOverride_validation_and_authorization_witness :
    requestOverride c7CriticalRequest (.ok ()) =
      (.error (.attributeError "NoneType object has no attribute is_superuser"), 0) ∧
    requestOverride c7ShortRequest (.ok ()) =
      (.error (.validationError "Justification must be at least 100 characters"), 0) ∧
    validateOverrideRequest c7ValidRequest = .ok () := by
  refine ⟨(requestOverride_validation_and_authorization c7CriticalRequest (.ok ())).1 rfl,
    (requestOverride_validation_and_authorization c7ShortRequest (.ok ())).2.1
      (by decide) (by decide),
    (requestOverride_validation_and_authorization c7ValidRequest (.ok ())).2.2.2.2
      (by decide) (by decide) ?_ ?_ ?_ ?_ rfl⟩
  · intro h
    exact absurd h (by decide)
  · intro h
    exact absurd h (by decide)
  · intro h
    exact absurd h (by decide)
  · intro h
    exact absurd h (by decide)

/-- C10: every audit event written by a successful `execute_transition` has
`event_timestamp` and `created_at` equal to the constant
`datetime(2024, 1, 1)` — `_execute_transition_with_audit` consults no
clock — so any two successful transitions, whenever executed, produce
audit records with identical timestamps and the audit trail cannot order
transitions by time. -/
theorem executeTransition_audit_timestamps_constant
    (c₁ c₂ : TransitionContext) (f₁ f₂ : PipelineState)
    (tr₁ tr₂ : TransitionTrigger) (t₁ t₂ : PipelineState) (u₁ u₂ : ℕ)
    (r₁ r₂ : TransitionResult) (a₁ a₂ : List AuditEvent)
    (h₁ : executeTransition c₁ f₁ tr₁ t₁ u₁ = (.ok r₁, a₁))
    (h₂ : executeTransition c₂ f₂ tr₂ t₂ u₂ = (.ok r₂, a₂)) :
    (∀ a ∈ a₁, a.eventTimestamp = ⟨2024, 1, 1⟩ ∧ a.createdAt = ⟨2024, 1, 1⟩) ∧
    (∀ a ∈ a₁, ∀ b ∈ a₂,
      a.eventTimestamp = b.eventTimestamp ∧ a.createdAt = b.createdAt) := by
  have stamp : ∀ (c : TransitionContext) (f : PipelineState) (tr : TransitionTrigger)
      (t : PipelineState) (u : ℕ) (r : TransitionResult) (al : List AuditEvent),
      executeTransition c f tr t u = (.ok r, al) →
      ∀ a ∈ al, a.eventTimestamp = ⟨2024, 1, 1⟩ ∧ a.createdAt = ⟨2024, 1, 1⟩ := by
    intro c f tr t u r al h a ha
    unfold executeTransition at h
    cases hv : validateTransition c f tr t with
    | error e =>
      rw [hv] at h
      simp at h
    | ok b =>
      rw [hv] at h
      rcases hE : executeTransitionWithAudit u c f tr t with ⟨res, aud⟩
      rw [hE] at h
      rw [Prod.mk.injEq] at h
      rw [← h.2] at ha
      rw [List.mem_singleton] at ha
      subst ha
      have he : a = (executeTransitionWithAudit u c f tr t).2 := by rw [hE]
      rw [he]
      exact ⟨rfl, rfl⟩
  refine ⟨stamp c₁ f₁ tr₁ t₁ u₁ r₁ a₁ h₁, ?_⟩
  intro a ha b hb
  obtain ⟨ea, ca⟩ := stamp c₁ f₁ tr₁ t₁ u₁ r₁ a₁ h₁ a ha
  obtain ⟨eb, cb⟩ := stamp c₂ f₂ tr₂ t₂ u₂ r₂ a₂ h₂ b hb
  exact ⟨by rw [ea, eb], by rw [ca, cb]⟩

/-- C10 witness: the audit event of a concrete successful transition
(ingested → normalized, fresh uuid 11) carries the constant timestamp,
obtained from the claim theorem applied at two concrete executions. -/
theorem executeTransition_audit_timestamps_constant_witness :
    (executeTransitionWithAudit 11 { entityId := "d1", entityType := "document" }
        (.inl .ingested) .normalizationComplete (.inl .normalized)).2.eventTimestamp =
      ⟨2024, 1, 1⟩ ∧
    (executeTransitionWithAudit 11 { entityId := "d1", entityType := "document" }
        (.inl .ingested) .normalizationComplete (.inl .normalized)).2.createdAt =
      ⟨2024, 1, 1⟩ :=
  (executeTransition_audit_timestamps_constant
      { entityId := "d1", entityType := "document" }
      { entityId := "d2", entityType := "document" }
      (.inl .ingested) (.inl .ingested) .normalizationComplete .normalizationComplete
      (.inl .normalized) (.inl .normalized) 11 12 _ _ _ _ rfl rfl).1
    (executeTransitionWithAudit 11 { entityId := "d1", entityType := "document" }
        (.inl .ingested) .normalizationComplete (.inl .normalized)).2
    (List.mem_singleton.mpr rfl)

/-- The claim's "completion precondition met": a completion percentage is
present in the context and reaches the threshold. -/
def pctMeets (context : TransitionContext) (threshold : ℚ) : Prop :=
  ∃ p, context.completionPercentage = some p ∧ threshold ≤ p

/-- The claim's "completion_percentage missing or below the threshold". -/
def pctUnmet (context : TransitionContext) (threshold : ℚ) : Prop :=
  context.completionPercentage = none ∨
    ∃ p, context.completionPercentage = some p ∧ p < threshold

/-- Every rule of the authoritative tables requires validation and names at
most one completion-threshold precondition. -/
theorem tableRule_facts (fromState : PipelineState) (trigger : TransitionTrigger)
    (m : List (TransitionTrigger × StateTransition)) (rule : StateTransition)
    (hm : transitionsFor fromState = some m)
    (ht : lookupTrigger trigger m = some rule) :
    ¬("completion_90_percent" ∈ rule.preconditions ∧
        "completion_70_percent" ∈ rule.preconditions) ∧
    rule.validationRequired = true := by
  rcases fromState with d | i
  · cases d <;> cases trigger <;>
      simp only [transitionsFor, documentTransitions] at hm <;>
      first
        | exact Option.noConfusion hm
        | (injection hm with hm'
           subst hm'
           simp only [lookupTrigger, reduceIte, Option.some.injEq, reduceCtorEq] at ht
           try subst ht
           try exact ⟨by decide, rfl⟩)
  · cases i <;> cases trigger <;>
      simp only [transitionsFor, imageTransitions] at hm <;>
      first
        | exact Option.noConfusion hm
        | (injection hm with hm'
           subst hm'
           simp only [lookupTrigger, reduceIte, Option.some.injEq, reduceCtorEq] at ht
           try subst ht
           try exact ⟨by decide, rfl⟩)

/-- `_validate_preconditions` succeeds when each named completion threshold
is met (all other condition names are ignored by the source). -/
theorem validatePreconditionsList_ok (context : TransitionContext) (l : List String)
    (h90 : "completion_90_percent" ∈ l → pctMeets context 90)
    (h70 : "completion_70_percent" ∈ l → pctMeets context 70) :
    validatePreconditionsList context l = .ok () := by
  induction l with
  | nil => rfl
  | cons c rest ih =>
    have hc : checkPrecondition context c = .ok () := by
      by_cases h9 : c = "completion_90_percent"
      · obtain ⟨p, hp, hle⟩ := h90 (h9 ▸ List.mem_cons_self c rest)
        subst h9
        simp [checkPrecondition, hp, not_lt.mpr hle]
      · by_cases h7 : c = "completion_70_percent"
        · obtain ⟨p, hp, hle⟩ := h70 (h7 ▸ List.mem_cons_self c rest)
          subst h7
          simp [checkPrecondition, h9, hp, not_lt.mpr hle]
        · simp [checkPrecondition, h9, h7]
    simp only [validatePreconditionsList, hc]
    exact ih (fun hm => h90 (List.mem_cons_of_mem c hm))
      (fun hm => h70 (List.mem_cons_of_mem c hm))

/-- `_validate_preconditions` raises the 90% threshold error when the list
names `completion_90_percent` (and not the 70% condition) and the context's
percentage is missing or below 90. -/
theorem validatePreconditionsList_error90 (context : TransitionContext)
    (l : List String) (hmem : "completion_90_percent" ∈ l)
    (hno70 : "completion_70_percent" ∉ l) (hunmet : pctUnmet context 90) :
    validatePreconditionsList context l =
      .error { errorCode := "COMPLETION_THRESHOLD_NOT_MET"
               requiredPercentage := some 90
               actualPercentage := context.completionPercentage } := by
  induction l with
  | nil => cases hmem
  | cons c rest ih =>
    by_cases h9 : c = "completion_90_percent"
    · subst h9
      rcases hunmet with hn | ⟨p, hp, hlt⟩
      · simp [validatePreconditionsList, checkPrecondition, hn]
      · simp [validatePreconditionsList, checkPrecondition, hp, hlt]
    · have h7 : c ≠ "completion_70_percent" :=
        fun h => hno70 (h ▸ List.mem_cons_self c rest)
      have hck : checkPrecondition context c = .ok () := by
        simp [checkPrecondition, h9, h7]
      have hmem' : "completion_90_percent" ∈ rest := by
        rcases List.mem_cons.mp hmem with h | h
        · exact absurd h.symm h9
        · exact h
      simp only [validatePreconditionsList, hck]
      exact ih hmem' (fun h => hno70 (List.mem_cons_of_mem c h))

/-- `_validate_preconditions` raises the 70% threshold error when the list
names `completion_70_percent` (and not the 90% condition) and the context's
percentage is missing or below 70. -/
theorem validatePreconditionsList_error70 (context : TransitionContext)
    (l : List String) (hmem : "completion_70_percent" ∈ l)
    (hno90 : "completion_90_percent" ∉ l) (hunmet : pctUnmet context 70) :
    validatePreconditionsList context l =
      .error { errorCode := "COMPLETION_THRESHOLD_NOT_MET"
               requiredPercentage := some 70
               actualPercentage := context.completionPercentage } := by
  induction l with
  | nil => cases hmem
  | cons c rest ih =>
    by_cases h7 : c = "completion_70_percent"
    · subst h7
      have h9 : ("completion_70_percent" : String) ≠ "completion_90_percent" := by
        decide
      rcases hunmet with hn | ⟨p, hp, hlt⟩
      · simp [validatePreconditionsList, checkPrecondition, h9, hn]
      · simp [validatePreconditionsList, checkPrecondition, h9, hp, hlt]
    · have h9 : c ≠ "completion_90_percent" := by
        intro h
        subst h
        exact hno90 (List.mem_cons_self _ rest)
      have hck : checkPrecondition context c = .ok () := by
        simp [checkPrecondition, h9, h7]
      have hmem' : "completion_70_percent" ∈ rest := by
        rcases List.mem_cons.mp hmem with h | h
        · exact absurd h.symm h7
        · exact h
      simp only [validatePreconditionsList, hck]
      exact ih hmem' (fun h => hno90 (List.mem_cons_of_mem c h))

/-- C1: the full error contract of `validate_transition` over the
authoritative tables, and its propagation through `execute_transition`.
An unknown from-state fails with `INVALID_FROM_STATE`; an unregistered
trigger fails with `INVALID_TRANSITION` carrying the list of valid
triggers; a caller-supplied to-state differing from the table's recorded
one (Python `!=` on `str`-mixin enums, i.e. differing string values) fails
with `TARGET_STATE_MISMATCH`; a required completion precondition that is
unmet (percentage missing or below 90 resp. 70) fails with
`COMPLETION_THRESHOLD_NOT_MET` carrying the required and actual
percentages; otherwise validation returns `True`.  Any validation error
makes `execute_transition` raise the same error with no audit event
written (and hence no state mutation). -/
theorem validateTransition_contract (context : TransitionContext)
    (fromState : PipelineState) (trigger : TransitionTrigger)
    (toState : PipelineState) :
    (transitionsFor fromState = none →
      validateTransition context fromState trigger toState =
        .error { message := "Invalid from_state", errorCode := "INVALID_FROM_STATE" }) ∧
    (∀ m, transitionsFor fromState = some m →
      lookupTrigger trigger m = none →
      validateTransition context fromState trigger toState =
        .error { message := "Invalid transition", errorCode := "INVALID_TRANSITION",
                 validTriggers := m.map Prod.fst }) ∧
    (∀ m rule, transitionsFor fromState = some m →
      lookupTrigger trigger m = some rule →
      stateVal rule.toState ≠ stateVal toState →
      validateTransition context fromState trigger toState =
        .error { message := "Target state mismatch",
                 errorCode := "TARGET_STATE_MISMATCH" }) ∧
    (∀ m rule, transitionsFor fromState = some m →
      lookupTrigger trigger m = some rule →
      stateVal rule.toState = stateVal toState →
      "completion_90_percent" ∈ rule.preconditions → pctUnmet context 90 →
      validateTransition context fromState trigger toState =
        .error { errorCode := "COMPLETION_THRESHOLD_NOT_MET",
                 requiredPercentage := some 90,
                 actualPercentage := context.completionPercentage }) ∧
    (∀ m rule, transitionsFor fromState = some m →
      lookupTrigger trigger m = some rule →
      stateVal rule.toState = stateVal toState →
      "completion_70_percent" ∈ rule.preconditions → pctUnmet context 70 →
      validateTransition context fromState trigger toState =
        .error { errorCode := "COMPLETION_THRESHOLD_NOT_MET",
                 requiredPercentage := some 70,
                 actualPercentage := context.completionPercentage }) ∧
    (∀ m rule, transitionsFor fromState = some m →
      lookupTrigger trigger m = some rule →
      stateVal rule.toState = stateVal toState →
      ("completion_90_percent" ∈ rule.preconditions → pctMeets context 90) →
      ("completion_70_percent" ∈ rule.preconditions → pctMeets context 70) →
      validateTransition context fromState trigger toState = .ok true) ∧
    (∀ e uuid, validateTransition context fromState trigger toState = .error e →
      executeTransition context fromState trigger toState uuid = (.error e, [])) := by
  refine ⟨?_, ?_, ?_, ?_, ?_, ?_, ?_⟩
  · intro h
    simp [validateTransition, h]
  · intro m hm ht
    simp [validateTransition, hm, ht]
  · intro m rule hm ht hne
    simp [validateTransition, hm, ht, hne]
  · intro m rule hm ht heq hmem hunmet
    obtain ⟨hexcl, hreq⟩ := tableRule_facts fromState trigger m rule hm ht
    have hno70 : "completion_70_percent" ∉ rule.preconditions :=
      fun h => hexcl ⟨hmem, h⟩
    have hval := validatePreconditionsList_error90 context rule.preconditions
      hmem hno70 hunmet
    simp [validateTransition, hm, ht, heq, hreq, hval]
  · intro m rule hm ht heq hmem hunmet
    obtain ⟨hexcl, hreq⟩ := tableRule_facts fromState trigger m rule hm ht
    have hno90 : "completion_90_percent" ∉ rule.preconditions :=
      fun h => hexcl ⟨h, hmem⟩
    have hval := validatePreconditionsList_error70 context rule.preconditions
      hmem hno90 hunmet
    simp [validateTransition, hm, ht, heq, hreq, hval]
  · intro m rule hm ht heq h90 h70
    have hval := validatePreconditionsList_ok context rule.preconditions h90 h70
    simp [validateTransition, hm, ht, heq, hval]
  · intro e uuid h
    simp [executeTransition, h]

/-- C1 witness: concrete instances of each error case and of a successful
validation.  `ready` has no outgoing document transitions
(`INVALID_FROM_STATE`); `ingested` does not accept `extraction_complete`
(`INVALID_TRANSITION`, valid triggers `[normalization_complete]`); the
recorded target of `ingested --normalization_complete-->` is `normalized`,
not `failed` (`TARGET_STATE_MISMATCH`); the `partially_processed → ready`
rule requires `completion_90_percent`, unmet at 80
(`COMPLETION_THRESHOLD_NOT_MET`); and the same rule validates at 95.  The
threshold error makes `execute_transition` raise it with no audit
event. -/
theorem validateTransition_contract_witness :
    validateTransition { entityId := "d", entityType := "document" }
        (.inl .ready) .normalizationComplete (.inl .normalized) =
      .error { message := "Invalid from_state", errorCode := "INVALID_FROM_STATE" } ∧
    validateTransition { entityId := "d", entityType := "document" }
        (.inl .ingested) .extractionComplete (.inl .normalized) =
      .error { message := "Invalid transition", errorCode := "INVALID_TRANSITION",
               validTriggers := [.normalizationComplete] } ∧
    validateTransition { entityId := "d", entityType := "document" }
        (.inl .ingested) .normalizationComplete (.inl .failed) =
      .error { message := "Target state mismatch",
               errorCode := "TARGET_STATE_MISMATCH" } ∧
    validateTransition
        { entityId := "d", entityType := "document", completionPercentage := some 80 }
        (.inl .partiallyProcessed) .completionThresholdMet (.inl .ready) =
      .error { errorCode := "COMPLETION_THRESHOLD_NOT_MET",
               requiredPercentage := some 90, actualPercentage := some 80 } ∧
    validateTransition
        { entityId := "d", entityType := "document", completionPercentage := some 95 }
        (.inl .partiallyProcessed) .completionThresholdMet (.inl .ready) = .ok true ∧
    executeTransition
        { entityId := "d", entityType := "document", completionPercentage := some 80 }
        (.inl .partiallyProcessed) .completionThresholdMet (.inl .ready) 3 =
      (.error { errorCode := "COMPLETION_THRESHOLD_NOT_MET",
                requiredPercentage := some 90, actualPercentage := some 80 }, []) := by
  have h80 : validateTransition
      { entityId := "d", entityType := "document", completionPercentage := some 80 }
      (.inl .partiallyProcessed) .completionThresholdMet (.inl .ready) =
      .error { errorCode := "COMPLETION_THRESHOLD_NOT_MET",
               requiredPercentage := some 90, actualPercentage := some 80 } :=
    (validateTransition_contract _ _ _ _).2.2.2.1
      [(.completionThresholdMet, rulePartiallyProcessed)] rulePartiallyProcessed
      rfl rfl rfl (by decide) (Or.inr ⟨80, rfl, by norm_num⟩)
  refine ⟨(validateTransition_contract _ _ _ _).1 rfl,
    (validateTransition_contract _ _ _ _).2.1
      [(.normalizationComplete, ruleIngested)] rfl rfl,
    (validateTransition_contract _ _ _ _).2.2.1
      [(.normalizationComplete, ruleIngested)] ruleIngested rfl rfl (by decide),
    h80,
    (validateTransition_contract _ _ _ _).2.2.2.2.2.1
      [(.completionThresholdMet, rulePartiallyProcessed)] rulePartiallyProcessed
      rfl rfl rfl
      (fun _ => ⟨95, rfl, by norm_num⟩) (fun _ => ⟨95, rfl, by norm_num⟩),
    (validateTransition_contract _ _ _ _).2.2.2.2.2.2 _ 3 h80⟩

/-- A filtered list is non-trivial exactly when some member passes the
predicate. -/
theorem filter_length_pos_iff {α : Type} (p : α → Bool) (l : List α) :
    0 < (l.filter p).length ↔ ∃ a ∈ l, p a = true := by
  induction l with
  | nil => simp
  | cons a l ih =>
    by_cases h : p a = true
    · simp [List.filter_cons, h]
    · simp [List.filter_cons, h, ih]

/-- A member failing the predicate makes the filtered list strictly
shorter. -/
theorem filter_length_lt_of_exists_not {α : Type} (p : α → Bool) (l : List α)
    (h : ∃ a ∈ l, p a = false) : (l.filter p).length < l.length := by
  induction l with
  | nil => simp at h
  | cons a l ih =>
    rcases h with ⟨b, hb, hpb⟩
    rcases List.mem_cons.mp hb with rfl | hbl
    · rw [List.filter_cons, if_neg (by simp [hpb])]
      simp only [List.length_cons]
      exact Nat.lt_succ_of_le (List.length_filter_le p l)
    · by_cases hpa : p a = true
      · rw [List.filter_cons, if_pos hpa]
        simpa using ih ⟨b, hbl, hpb⟩
      · rw [List.filter_cons, if_neg hpa]
        simp only [List.length_cons]
        exact Nat.lt_succ_of_lt (ih ⟨b, hbl, hpb⟩)

/-- A ratio of counts, times 100, stays at or below 100. -/
theorem count_ratio_le_100 (a b : ℕ) (hb : 0 < b) (hab : a ≤ b) :
    (a : ℚ) / (b : ℚ) * 100 ≤ 100 := by
  have hbq : (0 : ℚ) < (b : ℚ) := by exact_mod_cast hb
  have h1 : (a : ℚ) / (b : ℚ) ≤ 1 := by
    rw [div_le_one hbq]
    exact_mod_cast hab
  linarith

/-- A strict ratio of counts, times 100, stays strictly below 100. -/
theorem count_ratio_lt_100 (a b : ℕ) (hb : 0 < b) (hab : a < b) :
    (a : ℚ) / (b : ℚ) * 100 < 100 := by
  have hbq : (0 : ℚ) < (b : ℚ) := by exact_mod_cast hb
  have h1 : (a : ℚ) / (b : ℚ) < 1 := by
    rw [div_lt_one hbq]
    exact_mod_cast hab
  linarith

/-- The critical completion percentage never exceeds 100. -/
theorem criticalCompletionPercentage_le_100 (documentId : String)
    (images : List ImageCompletionStatus) :
    (calculateMetrics documentId images).criticalCompletionPercentage ≤ 100 := by
  unfold calculateMetrics
  simp only
  split
  · next hpos =>
    exact count_ratio_le_100 _ _ hpos (List.length_filter_le _ _)
  · exact le_refl _

/-- The blocked-image count is positive exactly when some image sits in a
blocking state. -/
theorem blockedImages_pos_iff (documentId : String)
    (images : List ImageCompletionStatus) :
    0 < (calculateMetrics documentId images).blockedImages ↔
      ∃ img ∈ images, img.state ∈ BLOCKING_STATES := by
  unfold calculateMetrics
  simp only
  rw [filter_length_pos_iff]
  constructor
  · rintro ⟨img, him, hp⟩
    exact ⟨img, him, of_decide_eq_true hp⟩
  · rintro ⟨img, him, hp⟩
    exact ⟨img, him, decide_eq_true hp⟩

/-- C2: `calculate_completion`'s recommended state.  A document with no
images gets 100% on every metric and READY.  For a non-empty image set the
recommendation follows the priority order: any image in a blocking state
(of `BLOCKING_STATES`; the image-state enum has no `BLOCKED` member, so
`NEEDS_HITL` is its only inhabitable blocking state) or a processing time
of at least 24 hours gives BLOCKED; else completion ≥ 90 with critical
completion exactly 100 gives READY; else completion ≥ 70 with critical
completion exactly 100 gives PARTIALLY_PROCESSED; else IMAGES_EXTRACTED.
Consequently a document with an incomplete critical image is never
recommended READY or PARTIALLY_PROCESSED. -/
theorem calculateCompletion_recommendation (documentId : String)
    (images : List ImageCompletionStatus) :
    (images = [] →
      (calculateCompletion documentId images).completionPercentage = 100 ∧
      (calculateCompletion documentId images).criticalCompletionPercentage = 100 ∧
      (calculateCompletion documentId images).weightedCompletion = 100 ∧
      (calculateCompletion documentId images).recommendedState =
        PipelineDocumentState.ready) ∧
    (images ≠ [] →
      (calculateCompletion documentId images).recommendedState =
        (if (∃ img ∈ images, img.state ∈ BLOCKING_STATES) ∨
            24 ≤ (calculateMetrics documentId images).processingTimeHours then
          PipelineDocumentState.blocked
        else if 90 ≤ (calculateMetrics documentId images).completionPercentage ∧
            (calculateMetrics documentId images).criticalCompletionPercentage = 100 then
          PipelineDocumentState.ready
        else if 70 ≤ (calculateMetrics documentId images).completionPercentage ∧
            (calculateMetrics documentId images).criticalCompletionPercentage = 100 then
          PipelineDocumentState.partiallyProcessed
        else PipelineDocumentState.imagesExtracted)) ∧
    (images ≠ [] →
      (∃ img ∈ images, img.diagramType = DiagramType.critical ∧
        img.isComplete = false) →
      (calculateCompletion documentId images).recommendedState ≠
          PipelineDocumentState.ready ∧
        (calculateCompletion documentId images).recommendedState ≠
          PipelineDocumentState.partiallyProcessed) := by
  have hchar : images ≠ [] →
      (calculateCompletion documentId images).recommendedState =
        (if (∃ img ∈ images, img.state ∈ BLOCKING_STATES) ∨
            24 ≤ (calculateMetrics documentId images).processingTimeHours then
          PipelineDocumentState.blocked
        else if 90 ≤ (calculateMetrics documentId images).completionPercentage ∧
            (calculateMetrics documentId images).criticalCompletionPercentage = 100 then
          PipelineDocumentState.ready
        else if 70 ≤ (calculateMetrics documentId images).completionPercentage ∧
            (calculateMetrics documentId images).criticalCompletionPercentage = 100 then
          PipelineDocumentState.partiallyProcessed
        else PipelineDocumentState.imagesExtracted) := by
    intro hne
    have hempty : images.isEmpty = false := by
      cases images with
      | nil => exact absurd rfl hne
      | cons a l => rfl
    have hstate : (calculateCompletion documentId images).recommendedState =
        determineDocumentState (calculateMetrics documentId images) := by
      unfold calculateCompletion
      rw [hempty]
      simp
    rw [hstate]
    have htimeval : (calculateMetrics documentId images).processingTimeHours = 5 / 2 := rfl
    have htime : ¬ (24 ≤ (calculateMetrics documentId images).processingTimeHours) := by
      rw [htimeval]
      norm_num
    have hcrit_iff :
        CRITICAL_COMPLETION_REQUIRED ≤
            (calculateMetrics documentId images).criticalCompletionPercentage ↔
          (calculateMetrics documentId images).criticalCompletionPercentage = 100 :=
      ⟨fun h => le_antisymm (criticalCompletionPercentage_le_100 documentId images) h,
       fun h => h ▸ le_refl _⟩
    by_cases hb : 0 < (calculateMetrics documentId images).blockedImages
    · have hbex := (blockedImages_pos_iff documentId images).mp hb
      rw [determineDocumentState, if_pos hb, if_pos (Or.inl hbex)]
    · have hbex : ¬ ∃ img ∈ images, img.state ∈ BLOCKING_STATES :=
        fun h => hb ((blockedImages_pos_iff documentId images).mpr h)
      rw [determineDocumentState, if_neg hb, if_neg htime,
        if_neg (not_or.mpr ⟨hbex, htime⟩)]
      rw [show READY_THRESHOLD = (90 : ℚ) from rfl,
        show PARTIALLY_PROCESSED_THRESHOLD = (70 : ℚ) from rfl]
      by_cases h90 : 90 ≤ (calculateMetrics documentId images).completionPercentage ∧
          (calculateMetrics documentId images).criticalCompletionPercentage = 100
      · rw [if_pos ⟨h90.1, hcrit_iff.mpr h90.2⟩, if_pos h90]
      · rw [if_neg (fun h => h90 ⟨h.1, hcrit_iff.mp h.2⟩), if_neg h90]
        by_cases h70 : 70 ≤ (calculateMetrics documentId images).completionPercentage ∧
            (calculateMetrics documentId images).criticalCompletionPercentage = 100
        · rw [if_pos ⟨h70.1, hcrit_iff.mpr h70.2⟩, if_pos h70]
        · rw [if_neg (fun h => h70 ⟨h.1, hcrit_iff.mp h.2⟩), if_neg h70]
  refine ⟨?_, hchar, ?_⟩
  · intro he
    subst he
    refine ⟨rfl, rfl, rfl, rfl⟩
  · intro hne hex
    have hlt : (calculateMetrics documentId images).criticalCompletionPercentage < 100 := by
      obtain ⟨img, him, hcrit, hinc⟩ := hex
      have hmemcrit : img ∈ images.filter
          (fun i => i.diagramType = DiagramType.critical) :=
        List.mem_filter.mpr ⟨him, by simp [hcrit]⟩
      have hctpos : 0 < (images.filter
          (fun i => i.diagramType = DiagramType.critical)).length :=
        List.length_pos.mpr (fun h => by rw [h] at hmemcrit; cases hmemcrit)
      have hcclt : ((images.filter
            (fun i => i.diagramType = DiagramType.critical)).filter
          (fun i => i.isComplete)).length <
          (images.filter (fun i => i.diagramType = DiagramType.critical)).length :=
        filter_length_lt_of_exists_not _ _ ⟨img, hmemcrit, by simp [hinc]⟩
      show (calculateMetrics documentId images).criticalCompletionPercentage < 100
      unfold calculateMetrics
      simp only
      rw [if_pos hctpos]
      exact count_ratio_lt_100 _ _ hctpos hcclt
    rw [hchar hne]
    split
    · exact ⟨by simp, by simp⟩
    · split
      · next h90 => exact absurd h90.2 (ne_of_lt hlt)
      · split
        · next h70 => exact absurd h70.2 (ne_of_lt hlt)
        · exact ⟨by simp, by simp⟩

/-- The incomplete supporting image of the spec's worked example. -/
def c2BlockedImage : ImageCompletionStatus :=
  { imageId := "s8"
    state := .needsHitl
    diagramType := .supporting
    completionWeight := 1
    isComplete := false }

/-- A complete critical image of the worked example. -/
def c2CriticalImage : ImageCompletionStatus :=
  { imageId := "c"
    state := .ready
    diagramType := .critical
    completionWeight := 2
    isComplete := true }

/-- A complete supporting image of the worked example. -/
def c2SupportingImage : ImageCompletionStatus :=
  { imageId := "s"
    state := .ready
    diagramType := .supporting
    completionWeight := 1
    isComplete := true }

/-- A complete decorative image of the worked example. -/
def c2DecorativeImage : ImageCompletionStatus :=
  { imageId := "d"
    state := .ignored
    diagramType := .decorative
    completionWeight := 1 / 10
    isComplete := true }

/-- The spec's worked example: 18 images, 3 critical, 9 supporting (one of
them incomplete in NEEDS_HITL, listed first), 6 decorative. -/
def c2ExampleImages : List ImageCompletionStatus :=
  c2BlockedImage ::
    (List.replicate 3 c2CriticalImage ++ List.replicate 8 c2SupportingImage ++
      List.replicate 6 c2DecorativeImage)

/-- C2 witness: the spec's worked example — 18 images (3 critical, 9
supporting, 6 decorative), all complete except one supporting image in
NEEDS_HITL — is recommended BLOCKED (the blocking rule beats the 94.4%
completion), and the empty document is READY at 100%. -/
theorem calculateCompletion_recommendation_witness :
    (calculateCompletion "doc-empty" []).recommendedState =
        PipelineDocumentState.ready ∧
    (calculateCompletion "doc-18" c2ExampleImages).recommendedState =
        PipelineDocumentState.blocked := by
  have hblocked : ∃ img ∈ c2ExampleImages, img.state ∈ BLOCKING_STATES :=
    ⟨c2BlockedImage, List.mem_cons_self _ _, by simp [c2BlockedImage, BLOCKING_STATES]⟩
  have h := (calculateCompletion_recommendation "doc-18" c2ExampleImages).2.1
    (List.cons_ne_nil _ _)
  rw [h, if_pos (Or.inl hblocked)]
  exact ⟨((calculateCompletion_recommendation "doc-empty" []).1 rfl).2.2.2, rfl⟩

/-- Completing one image leaves the total weight sum unchanged. -/
theorem weightSum_set (l : List ImageCompletionStatus) (i : ℕ) (hi : i < l.length) :
    ((l.set i { l.get ⟨i, hi⟩ with isComplete := true }).map
        (fun img => img.completionWeight)).sum =
      (l.map (fun img => img.completionWeight)).sum := by
  induction l generalizing i with
  | nil => simp at hi
  | cons a l ih =>
    cases i with
    | zero => simp
    | succ n =>
      have hn : n < l.length := Nat.lt_of_succ_lt_succ hi
      simp only [List.set, List.get, List.map_cons, List.sum_cons]
      rw [ih n hn]

/-- Completing one previously incomplete image adds exactly its weight to
the completed-weight sum. -/
theorem completedWeightSum_set (l : List ImageCompletionStatus) (i : ℕ)
    (hi : i < l.length) (hfalse : (l.get ⟨i, hi⟩).isComplete = false) :
    (((l.set i { l.get ⟨i, hi⟩ with isComplete := true }).filter
          (fun img => img.isComplete)).map (fun img => img.completionWeight)).sum =
      ((l.filter (fun img => img.isComplete)).map
          (fun img => img.completionWeight)).sum +
        (l.get ⟨i, hi⟩).completionWeight := by
  induction l generalizing i with
  | nil => simp at hi
  | cons a l ih =>
    cases i with
    | zero =>
      simp only [List.get] at hfalse
      simp [List.filter_cons, hfalse]
      exact add_comm _ _
    | succ n =>
      have hn : n < l.length := Nat.lt_of_succ_lt_succ hi
      simp only [List.get] at hfalse
      by_cases ha : a.isComplete = true
      · simp only [List.set, List.get, List.filter_cons, ha, if_pos,
          List.map_cons, List.sum_cons]
        rw [ih n hn hfalse]
        ring
      · simp only [List.set, List.get, List.filter_cons, ha, if_neg,
          Bool.false_eq_true]
        exact ih n hn hfalse

/-- C8: the weighted completion of `_calculate_metrics` equals the sum of
completion weights of complete images over the sum of all completion
weights, times 100 (the weights being the per-type 2.0 / 1.0 / 0.1 of
`DIAGRAM_WEIGHTS`), and it is monotone: completing one previously
incomplete image, all else unchanged, never decreases it. -/
theorem weightedCompletion_formula_and_monotone (documentId : String)
    (images : List ImageCompletionStatus)
    (hw : ∀ img ∈ images, img.completionWeight = DIAGRAM_WEIGHTS img.diagramType)
    (hne : images ≠ []) :
    (calculateMetrics documentId images).weightedCompletion =
      ((images.filter (fun img => img.isComplete)).map
          (fun img => img.completionWeight)).sum /
        (images.map (fun img => img.completionWeight)).sum * 100 ∧
    ∀ i : ℕ, ∀ hi : i < images.length,
      (images.get ⟨i, hi⟩).isComplete = false →
      (calculateMetrics documentId images).weightedCompletion ≤
        (calculateMetrics documentId
            (images.set i { images.get ⟨i, hi⟩ with isComplete := true })).weightedCompletion := by
  have hwpos : ∀ img ∈ images, 0 < img.completionWeight := by
    intro img him
    rw [hw img him]
    cases img.diagramType <;> norm_num [DIAGRAM_WEIGHTS]
  have htwpos : 0 < (images.map (fun img => img.completionWeight)).sum := by
    apply List.sum_pos
    · intro x hx
      obtain ⟨img, him, rfl⟩ := List.mem_map.mp hx
      exact hwpos img him
    · intro hmap
      exact hne (List.map_eq_nil_iff.mp hmap)
  have hformula : (calculateMetrics documentId images).weightedCompletion =
      ((images.filter (fun img => img.isComplete)).map
          (fun img => img.completionWeight)).sum /
        (images.map (fun img => img.completionWeight)).sum * 100 := by
    unfold calculateMetrics
    simp only
    rw [if_pos htwpos]
  refine ⟨hformula, ?_⟩
  intro i hi hfalse
  have hformula' : (calculateMetrics documentId
      (images.set i { images.get ⟨i, hi⟩ with isComplete := true })).weightedCompletion =
      (((images.set i { images.get ⟨i, hi⟩ with isComplete := true }).filter
          (fun img => img.isComplete)).map (fun img => img.completionWeight)).sum /
        ((images.set i { images.get ⟨i, hi⟩ with isComplete := true }).map
          (fun img => img.completionWeight)).sum * 100 := by
    unfold calculateMetrics
    simp only
    rw [if_pos (by rw [weightSum_set images i hi]; exact htwpos)]
  rw [hformula, hformula', weightSum_set images i hi,
    completedWeightSum_set images i hi hfalse]
  have hwnn : 0 ≤ (images.get ⟨i, hi⟩).completionWeight :=
    le_of_lt (hwpos _ (images.get_mem i hi))
  have hnum : ((images.filter (fun img => img.isComplete)).map
      (fun img => img.completionWeight)).sum ≤
      ((images.filter (fun img => img.isComplete)).map
        (fun img => img.completionWeight)).sum +
        (images.get ⟨i, hi⟩).completionWeight := by linarith
  exact mul_le_mul_of_nonneg_right ((div_le_div_iff_of_pos_right htwpos).mpr hnum)
    (by norm_num)

/-- The two-image C8 witness list: an incomplete supporting image and a
complete critical image. -/
def c8Images : List ImageCompletionStatus :=
  [{ imageId := "a"
     state := .needsHitl
     diagramType := .supporting
     completionWeight := 1
     isComplete := false },
   { imageId := "b"
     state := .ready
     diagramType := .critical
     completionWeight := 2
     isComplete := true }]

/-- C8 witness: on the two-image list, the weighted completion follows the
weight formula and completing the first image does not decrease it. -/
theorem weightedCompletion_formula_and_monotone_witness :
    (calculateMetrics "doc-w" c8Images).weightedCompletion =
      ((c8Images.filter (fun img => img.isComplete)).map
          (fun img => img.completionWeight)).sum /
        (c8Images.map (fun img => img.completionWeight)).sum * 100 ∧
    (calculateMetrics "doc-w" c8Images).weightedCompletion ≤
      (calculateMetrics "doc-w"
          (c8Images.set 0 { c8Images.get ⟨0, by norm_num [c8Images]⟩ with
            isComplete := true })).weightedCompletion := by
  have hw : ∀ img ∈ c8Images, img.completionWeight = DIAGRAM_WEIGHTS img.diagramType := by
    intro img him
    simp only [c8Images, List.mem_cons, List.mem_singleton] at him
    rcases him with rfl | rfl | h
    · norm_num [DIAGRAM_WEIGHTS]
    · norm_num [DIAGRAM_WEIGHTS]
    · cases h
  exact ⟨(weightedCompletion_formula_and_monotone "doc-w" c8Images hw
      (by simp [c8Images])).1,
    (weightedCompletion_formula_and_monotone "doc-w" c8Images hw
      (by simp [c8Images])).2 0 (by norm_num [c8Images]) rfl⟩

/-- The refill policy in the claim's words: scan the CRITICAL, then the
STANDARD, then the LOW queue and allocate the earliest-enqueued request of
the freed processing type (`List.find?` picks the first-in queued match,
FIFO; `List.eraseP` removes exactly that request). -/
def releaseRefillSpec (pt : ProcessingType) (now : ℚ)
    (s : ResourceManagerState) : ResourceManagerState :=
  match s.criticalQueue.find? (fun r => decide (r.processingType = pt)) with
  | some r => (allocateResource r.documentId r.imageId r.processingType now
      { s with criticalQueue :=
          s.criticalQueue.eraseP (fun r => decide (r.processingType = pt)) }).2
  | none =>
    match s.standardQueue.find? (fun r => decide (r.processingType = pt)) with
    | some r => (allocateResource r.documentId r.imageId r.processingType now
        { s with standardQueue :=
            s.standardQueue.eraseP (fun r => decide (r.processingType = pt)) }).2
    | none =>
      match s.lowQueue.find? (fun r => decide (r.processingType = pt)) with
      | some r => (allocateResource r.documentId r.imageId r.processingType now
          { s with lowQueue :=
              s.lowQueue.eraseP (fun r => decide (r.processingType = pt)) }).2
      | none => s

/-- The implementation's scan-and-remove of the first matching request is
`find?` plus `eraseP`. -/
theorem extractFirstMatching_eq (pt : ProcessingType) (l : List ProcessingRequest) :
    extractFirstMatching pt l =
      match l.find? (fun r => decide (r.processingType = pt)) with
      | none => none
      | some r => some (r, l.eraseP (fun r => decide (r.processingType = pt))) := by
  induction l with
  | nil => rfl
  | cons a l ih =>
    by_cases h : a.processingType = pt
    · simp [extractFirstMatching, h, List.find?_cons, List.eraseP_cons]
    · simp only [extractFirstMatching, if_neg h, ih, List.find?_cons,
        List.eraseP_cons, decide_eq_true_eq, h, decide_False, cond_false]
      cases l.find? (fun r => decide (r.processingType = pt)) <;> simp

/-- The state left by `_process_next_queued_request` follows the
find-earliest/FIFO policy of `releaseRefillSpec`. -/
theorem processNextQueuedRequest_state (pt : ProcessingType) (now : ℚ)
    (s : ResourceManagerState) :
    (processNextQueuedRequest pt now s).2 = releaseRefillSpec pt now s := by
  unfold processNextQueuedRequest releaseRefillSpec
  rw [extractFirstMatching_eq, extractFirstMatching_eq, extractFirstMatching_eq]
  cases s.criticalQueue.find? (fun r => decide (r.processingType = pt)) <;>
    cases s.standardQueue.find? (fun r => decide (r.processingType = pt)) <;>
      cases s.lowQueue.find? (fun r => decide (r.processingType = pt)) <;> simp

/-- C4 (amended): the Resource Manager contract.  A free slot means
immediate allocation (the pool of the processing type gains exactly one
allocation carrying the request's data, and its id is returned); a full
pool with queue depth below 100 means the request is enqueued at the back
of its priority's deque and its id is returned; a full pool with depth at
the 100 maximum raises `ResourceExhaustionError` — internally with code
`QUEUE_EXHAUSTED`, but `request_processing`'s own `except Exception`
handler catches it and the surfaced error code is
`RESOURCE_REQUEST_FAILED` — leaving the state unchanged; and
`release_resource` on an active allocation frees the slot and immediately
allocates the earliest-enqueued compatible request, scanning CRITICAL then
STANDARD then LOW, FIFO within each queue (`releaseRefillSpec`); unknown
ids return `False`. -/
theorem requestProcessing_release_contract (s : ResourceManagerState)
    (documentId imageId : String) (pt : ProcessingType) (priority : Priority)
    (diagramType : DiagramType) (now : ℚ) :
    (canAllocateImmediately pt s = true →
      ∃ a : ResourceAllocation,
        a.allocationId = s.nextId ∧ a.documentId = documentId ∧
        a.imageId = imageId ∧ a.processingType = pt ∧
        requestProcessing documentId imageId pt priority diagramType now s =
          (.ok a.allocationId,
            { s with
              nextId := s.nextId + 1
              documentStartTimes :=
                trackDocumentStart documentId now s.documentStartTimes
              gpuAllocations :=
                if pt = ProcessingType.gpuInterpretation then
                  s.gpuAllocations ++ [a]
                else s.gpuAllocations
              ocrAllocations :=
                if pt = ProcessingType.ocrExtraction then
                  s.ocrAllocations ++ [a]
                else s.ocrAllocations })) ∧
    (canAllocateImmediately pt s = false →
      s.criticalQueue.length + s.standardQueue.length + s.lowQueue.length <
        MAX_QUEUE_DEPTH →
      ∃ q : ProcessingRequest,
        q.requestId = s.nextId ∧ q.documentId = documentId ∧ q.imageId = imageId ∧
        q.processingType = pt ∧ q.priority = priority ∧ q.createdAt = now ∧
        requestProcessing documentId imageId pt priority diagramType now s =
          (.ok q.requestId,
            { s with
              nextId := s.nextId + 1
              documentStartTimes :=
                trackDocumentStart documentId now s.documentStartTimes
              criticalQueue :=
                if priority = Priority.critical then s.criticalQueue ++ [q]
                else s.criticalQueue
              standardQueue :=
                if priority = Priority.standard then s.standardQueue ++ [q]
                else s.standardQueue
              lowQueue :=
                if priority = Priority.low then s.lowQueue ++ [q]
                else s.lowQueue })) ∧
    (canAllocateImmediately pt s = false →
      MAX_QUEUE_DEPTH ≤
        s.criticalQueue.length + s.standardQueue.length + s.lowQueue.length →
      queueRequest documentId imageId pt priority diagramType now s =
        .error { message := "Queue full", errorCode := "QUEUE_EXHAUSTED" } ∧
      requestProcessing documentId imageId pt priority diagramType now s =
        (.error { message := "Resource request failed",
                  errorCode := "RESOURCE_REQUEST_FAILED" }, s)) ∧
    (∀ requestId alloc rest,
      popAllocation requestId s.gpuAllocations = some (alloc, rest) →
      releaseResource requestId now s =
        (true, releaseRefillSpec alloc.processingType now
          { s with gpuAllocations := rest })) ∧
    (∀ requestId alloc rest,
      popAllocation requestId s.gpuAllocations = none →
      popAllocation requestId s.ocrAllocations = some (alloc, rest) →
      releaseResource requestId now s =
        (true, releaseRefillSpec alloc.processingType now
          { s with ocrAllocations := rest })) ∧
    (∀ requestId,
      popAllocation requestId s.gpuAllocations = none →
      popAllocation requestId s.ocrAllocations = none →
      releaseResource requestId now s = (false, s)) := by
  refine ⟨?_, ?_, ?_, ?_, ?_, ?_⟩
  · intro hc
    refine ⟨{ allocationId := s.nextId, processingType := pt, requestId := s.nextId,
              documentId := documentId, imageId := imageId, allocatedAt := now,
              estimatedCompletion := now + PROCESSING_ESTIMATES pt },
      rfl, rfl, rfl, rfl, ?_⟩
    cases pt <;> simp [requestProcessing, hc, allocateResource]
  · intro hc hdepth
    refine ⟨{ requestId := s.nextId, documentId := documentId, imageId := imageId,
              processingType := pt, priority := priority, diagramType := diagramType,
              estimatedDurationMinutes := PROCESSING_ESTIMATES pt, createdAt := now,
              timeoutAt := now + DOCUMENT_TIMEOUT_HOURS * 60 },
      rfl, rfl, rfl, rfl, rfl, rfl, ?_⟩
    cases priority <;>
      simp [requestProcessing, hc, queueRequest, Nat.not_le.mpr hdepth]
  · intro hc hdepth
    refine ⟨by simp [queueRequest, hdepth], ?_⟩
    simp [requestProcessing, hc, queueRequest, hdepth]
  · intro requestId alloc rest hpop
    unfold releaseResource
    rw [hpop]
    rcases hE : processNextQueuedRequest alloc.processingType now
        { s with gpuAllocations := rest } with ⟨oid, s'⟩
    have hs := processNextQueuedRequest_state alloc.processingType now
      { s with gpuAllocations := rest }
    rw [hE] at hs
    simp only
    rw [hE]
    rw [← hs]
  · intro requestId alloc rest hpop1 hpop2
    unfold releaseResource
    rw [hpop1, hpop2]
    rcases hE : processNextQueuedRequest alloc.processingType now
        { s with ocrAllocations := rest } with ⟨oid, s'⟩
    have hs := processNextQueuedRequest_state alloc.processingType now
      { s with ocrAllocations := rest }
    rw [hE] at hs
    simp only
    rw [hE]
    rw [← hs]
  · intro requestId hpop1 hpop2
    unfold releaseResource
    rw [hpop1, hpop2]

/-- One of the five active GPU allocations of the C4 states. -/
def c4Alloc (i : ℕ) : ResourceAllocation :=
  { allocationId := i
    processingType := .gpuInterpretation
    requestId := i
    documentId := "d"
    imageId := "i"
    allocatedAt := 0
    estimatedCompletion := 8 }

/-- One of the hundred queued GPU requests of the C4 full state. -/
def c4Queued (i : ℕ) : ProcessingRequest :=
  { requestId := 5 + i
    documentId := "d"
    imageId := "i"
    processingType := .gpuInterpretation
    priority := .low
    diagramType := .supporting
    estimatedDurationMinutes := 8
    createdAt := 0
    timeoutAt := 1440 }

/-- The C4 counterexample state: all five GPU slots taken and one hundred
requests queued (what a fresh manager reaches after five immediate GPU
allocations and a hundred queued GPU requests). -/
def c4FullState : ResourceManagerState :=
  { gpuAllocations := (List.range 5).map c4Alloc
    ocrAllocations := []
    criticalQueue := []
    standardQueue := []
    lowQueue := (List.range 100).map c4Queued
    documentStartTimes := [("d", 0)]
    timedOutDocuments := []
    nextId := 105 }

/-- C4 counterexample: with the GPU pool full and the total queue depth at
its configured maximum of 100, `request_processing` does raise
`ResourceExhaustionError` — but its surfaced error code is
`RESOURCE_REQUEST_FAILED`, not the claim's `QUEUE_EXHAUSTED`: the
`QUEUE_EXHAUSTED` error that `_queue_request` raises internally is caught
by `request_processing`'s blanket `except Exception` handler and
re-wrapped. -/
theorem requestProcessing_queue_full_error_code_counterexample :
    (requestProcessing "d-new" "i-new" .gpuInterpretation .standard .supporting 0
        c4FullState).1 =
      .error { message := "Resource request failed",
               errorCode := "RESOURCE_REQUEST_FAILED" } ∧
    queueRequest "d-new" "i-new" .gpuInterpretation .standard .supporting 0
        c4FullState =
      .error { message := "Queue full", errorCode := "QUEUE_EXHAUSTED" } ∧
    "RESOURCE_REQUEST_FAILED" ≠ "QUEUE_EXHAUSTED" := by
  refine ⟨?_, ?_, by decide⟩
  · have h := ((requestProcessing_release_contract c4FullState "d-new" "i-new"
      .gpuInterpretation .standard .supporting 0).2.2.1 (by decide) (by decide)).2
    rw [h]
  · exact ((requestProcessing_release_contract c4FullState "d-new" "i-new"
      .gpuInterpretation .standard .supporting 0).2.2.1 (by decide) (by decide)).1

/-- The C4 witness state: five active GPU allocations and one queued
STANDARD GPU request (the spec's release scenario at the actual ceiling of
five). -/
def c4AlmostFullState : ResourceManagerState :=
  { gpuAllocations := (List.range 5).map c4Alloc
    ocrAllocations := []
    criticalQueue := []
    standardQueue := [c4Queued 0]
    lowQueue := []
    documentStartTimes := [("d", 0)]
    timedOutDocuments := []
    nextId := 6 }

/-- C4 witness: at the full state the request is rejected with
`RESOURCE_REQUEST_FAILED` and the state is unchanged; releasing active
allocation 2 frees the slot and hands it to the queued STANDARD request per
the scan policy. -/
theorem requestProcessing_release_contract_witness :
    requestProcessing "d-new" "i-new" .gpuInterpretation .standard .supporting 0
        c4FullState =
      (.error { message := "Resource request failed",
                errorCode := "RESOURCE_REQUEST_FAILED" }, c4FullState) ∧
    releaseResource 2 10 c4AlmostFullState =
      (true, releaseRefillSpec ProcessingType.gpuInterpretation 10
        { c4AlmostFullState with
          gpuAllocations := [c4Alloc 0, c4Alloc 1, c4Alloc 3, c4Alloc 4] }) :=
  ⟨((requestProcessing_release_contract c4FullState "d-new" "i-new"
      .gpuInterpretation .standard .supporting 0).2.2.1 (by decide) (by decide)).2,
   (requestProcessing_release_contract c4AlmostFullState "x" "y"
      .gpuInterpretation .standard .supporting 10).2.2.2.1
      2 (c4Alloc 2) [c4Alloc 0, c4Alloc 1, c4Alloc 3, c4Alloc 4] (by decide)⟩

/-- Each allocation dict holds only allocations of its own processing
type. -/
def typedPools (s : ResourceManagerState) : Prop :=
  (∀ a ∈ s.gpuAllocations, a.processingType = ProcessingType.gpuInterpretation) ∧
  (∀ a ∈ s.ocrAllocations, a.processingType = ProcessingType.ocrExtraction)

/-- `dict.pop` facts: the popped allocation was stored, and exactly one
entry is gone, the rest unchanged. -/
theorem popAllocation_facts (requestId : ℕ) (l : List ResourceAllocation)
    (alloc : ResourceAllocation) (rest : List ResourceAllocation)
    (h : popAllocation requestId l = some (alloc, rest)) :
    alloc ∈ l ∧ rest.length + 1 = l.length ∧ ∀ x ∈ rest, x ∈ l := by
  induction l generalizing rest with
  | nil => cases h
  | cons a l ih =>
    unfold popAllocation at h
    by_cases ha : a.allocationId = requestId
    · rw [if_pos ha, Option.some.injEq, Prod.mk.injEq] at h
      obtain ⟨h1, h2⟩ := h
      subst h1
      subst h2
      exact ⟨List.mem_cons_self a l, by simp,
        fun x hx => List.mem_cons_of_mem a hx⟩
    · rw [if_neg ha] at h
      cases hrec : popAllocation requestId l with
      | none => rw [hrec] at h; cases h
      | some p =>
        rcases p with ⟨found, rest'⟩
        rw [hrec, Option.some.injEq, Prod.mk.injEq] at h
        obtain ⟨h1, h2⟩ := h
        subst h1
        subst h2
        obtain ⟨hm, hlen, hsub⟩ := ih rest' hrec
        refine ⟨List.mem_cons_of_mem a hm, by simp [← hlen], ?_⟩
        intro x hx
        rcases List.mem_cons.mp hx with rfl | hx'
        · exact List.mem_cons_self x _
        · exact List.mem_cons_of_mem a (hsub x hx')

/-- The request extracted by the queue scan has the scanned processing
type. -/
theorem extractFirstMatching_type (pt : ProcessingType)
    (l : List ProcessingRequest) (r : ProcessingRequest)
    (rest : List ProcessingRequest)
    (h : extractFirstMatching pt l = some (r, rest)) :
    r.processingType = pt := by
  induction l generalizing r rest with
  | nil => cases h
  | cons a l ih =>
    unfold extractFirstMatching at h
    by_cases ha : a.processingType = pt
    · rw [if_pos ha, Option.some.injEq, Prod.mk.injEq] at h
      rw [← h.1]
      exact ha
    · rw [if_neg ha] at h
      cases hrec : extractFirstMatching pt l with
      | none => rw [hrec] at h; cases h
      | some p =>
        rcases p with ⟨found, rest'⟩
        rw [hrec, Option.some.injEq, Prod.mk.injEq] at h
        rw [← h.1]
        exact ih found rest' hrec

/-- `_allocate_resource` adds exactly one allocation, of the allocated
processing type, to the pool of that type (and nothing to the other). -/
theorem allocateResource_pools (documentId imageId : String)
    (pt : ProcessingType) (now : ℚ) (s : ResourceManagerState) :
    ∃ a : ResourceAllocation, a.processingType = pt ∧
      ((allocateResource documentId imageId pt now s).2.gpuAllocations =
        if pt = ProcessingType.gpuInterpretation then s.gpuAllocations ++ [a]
        else s.gpuAllocations) ∧
      ((allocateResource documentId imageId pt now s).2.ocrAllocations =
        if pt = ProcessingType.ocrExtraction then s.ocrAllocations ++ [a]
        else s.ocrAllocations) := by
  refine ⟨{ allocationId := s.nextId, processingType := pt, requestId := s.nextId,
            documentId := documentId, imageId := imageId, allocatedAt := now,
            estimatedCompletion := now + PROCESSING_ESTIMATES pt },
    rfl, ?_, ?_⟩ <;> cases pt <;> simp [allocateResource]

/-- The queue refill adds at most one allocation, of the freed processing
type, to the pool of that type. -/
theorem processNext_pools (pt : ProcessingType) (now : ℚ)
    (s : ResourceManagerState) :
    ∃ added : List ResourceAllocation,
      added.length ≤ 1 ∧ (∀ a ∈ added, a.processingType = pt) ∧
      ((processNextQueuedRequest pt now s).2.gpuAllocations =
        if pt = ProcessingType.gpuInterpretation then s.gpuAllocations ++ added
        else s.gpuAllocations) ∧
      ((processNextQueuedRequest pt now s).2.ocrAllocations =
        if pt = ProcessingType.ocrExtraction then s.ocrAllocations ++ added
        else s.ocrAllocations) := by
  unfold processNextQueuedRequest
  cases hc : extractFirstMatching pt s.criticalQueue with
  | some p =>
    rcases p with ⟨r, rest⟩
    have hr := extractFirstMatching_type pt s.criticalQueue r rest hc
    simp only [hr]
    obtain ⟨a, hat, hg, ho⟩ := allocateResource_pools r.documentId r.imageId
      pt now { s with criticalQueue := rest }
    exact ⟨[a], by simp, by simp [hat], by simpa using hg, by simpa using ho⟩
  | none =>
    cases hs : extractFirstMatching pt s.standardQueue with
    | some p =>
      rcases p with ⟨r, rest⟩
      have hr := extractFirstMatching_type pt s.standardQueue r rest hs
      simp only [hr]
      obtain ⟨a, hat, hg, ho⟩ := allocateResource_pools r.documentId r.imageId
        pt now { s with standardQueue := rest }
      exact ⟨[a], by simp, by simp [hat], by simpa using hg, by simpa using ho⟩
    | none =>
      cases hl : extractFirstMatching pt s.lowQueue with
      | some p =>
        rcases p with ⟨r, rest⟩
        have hr := extractFirstMatching_type pt s.lowQueue r rest hl
        simp only [hr]
        obtain ⟨a, hat, hg, ho⟩ := allocateResource_pools r.documentId r.imageId
          pt now { s with lowQueue := rest }
        exact ⟨[a], by simp, by simp [hat], by simpa using hg, by simpa using ho⟩
      | none =>
        exact ⟨[], by simp, by simp, by simp, by simp⟩

/-- `_queue_request` never touches the allocation pools. -/
theorem queueRequest_pools (documentId imageId : String) (pt : ProcessingType)
    (priority : Priority) (diagramType : DiagramType) (now : ℚ)
    (s : ResourceManagerState) (rid : ℕ) (s' : ResourceManagerState)
    (h : queueRequest documentId imageId pt priority diagramType now s =
      .ok (rid, s')) :
    s'.gpuAllocations = s.gpuAllocations ∧
      s'.ocrAllocations = s.ocrAllocations := by
  unfold queueRequest at h
  by_cases hd : MAX_QUEUE_DEPTH ≤
      s.criticalQueue.length + s.standardQueue.length + s.lowQueue.length
  · rw [if_pos hd] at h
    cases h
  · rw [if_neg hd] at h
    cases priority <;>
      (rw [Except.ok.injEq, Prod.mk.injEq] at h
       rw [← h.2]
       exact ⟨rfl, rfl⟩)

/-- One operation preserves pool typing and both capacity bounds. -/
theorem applyResourceOp_preserves (s : ResourceManagerState) (op : ResourceOp)
    (ht : typedPools s) (hg : s.gpuAllocations.length ≤ MAX_GPU_SLOTS)
    (ho : s.ocrAllocations.length ≤ MAX_OCR_SLOTS) :
    typedPools (applyResourceOp s op) ∧
      (applyResourceOp s op).gpuAllocations.length ≤ MAX_GPU_SLOTS ∧
      (applyResourceOp s op).ocrAllocations.length ≤ MAX_OCR_SLOTS := by
  cases op with
  | request documentId imageId pt priority diagramType now =>
    have happly : applyResourceOp s
        (.request documentId imageId pt priority diagramType now) =
        (requestProcessing documentId imageId pt priority diagramType now s).2 :=
      rfl
    rw [happly]
    by_cases hc : canAllocateImmediately pt s = true
    · have hstep : (requestProcessing documentId imageId pt priority
          diagramType now s).2 = (allocateResource documentId imageId pt now s).2 := by
        simp [requestProcessing, hc]
      rw [hstep]
      obtain ⟨a, hat, hga, hoa⟩ :=
        allocateResource_pools documentId imageId pt now s
      refine ⟨⟨?_, ?_⟩, ?_, ?_⟩
      · intro x hx
        rw [hga] at hx
        split at hx
        · next hpt =>
          rcases List.mem_append.mp hx with hx' | hx'
          · exact ht.1 x hx'
          · rw [List.mem_singleton.mp hx']
            rw [hat, hpt]
        · exact ht.1 x hx
      · intro x hx
        rw [hoa] at hx
        split at hx
        · next hpt =>
          rcases List.mem_append.mp hx with hx' | hx'
          · exact ht.2 x hx'
          · rw [List.mem_singleton.mp hx']
            rw [hat, hpt]
        · exact ht.2 x hx
      · rw [hga]
        split
        · next hpt =>
          subst hpt
          have hlt : s.gpuAllocations.length < MAX_GPU_SLOTS := by
            have := hc
            unfold canAllocateImmediately at this
            exact of_decide_eq_true this
          simpa using hlt
        · exact hg
      · rw [hoa]
        split
        · next hpt =>
          subst hpt
          have hlt : s.ocrAllocations.length < MAX_OCR_SLOTS := by
            have := hc
            unfold canAllocateImmediately at this
            exact of_decide_eq_true this
          simpa using hlt
        · exact ho
    · have hcf : canAllocateImmediately pt s = false := by
        cases hcc : canAllocateImmediately pt s
        · rfl
        · exact absurd hcc hc
      cases hq : queueRequest documentId imageId pt priority diagramType now s with
      | error e =>
        have hstep : (requestProcessing documentId imageId pt priority
            diagramType now s).2 = s := by
          simp [requestProcessing, hcf, hq]
        rw [hstep]
        exact ⟨ht, hg, ho⟩
      | ok p =>
        rcases p with ⟨rid, s'⟩
        have hstep : (requestProcessing documentId imageId pt priority
            diagramType now s).2 = s' := by
          simp [requestProcessing, hcf, hq]
        rw [hstep]
        obtain ⟨hga, hoa⟩ := queueRequest_pools documentId imageId pt priority
          diagramType now s rid s' hq
        exact ⟨⟨hga ▸ ht.1, hoa ▸ ht.2⟩, hga ▸ hg, hoa ▸ ho⟩
  | release requestId now =>
    have happly : applyResourceOp s (.release requestId now) =
        (releaseResource requestId now s).2 := rfl
    rw [happly]
    cases hp1 : popAllocation requestId s.gpuAllocations with
    | some p =>
      rcases p with ⟨alloc, rest⟩
      obtain ⟨hmem, hlen, hsub⟩ := popAllocation_facts requestId
        s.gpuAllocations alloc rest hp1
      have hptype : alloc.processingType = ProcessingType.gpuInterpretation :=
        ht.1 alloc hmem
      have hstep : (releaseResource requestId now s).2 =
          (processNextQueuedRequest alloc.processingType now
            { s with gpuAllocations := rest }).2 := by
        unfold releaseResource
        rw [hp1]
      rw [hstep, hptype]
      obtain ⟨added, haddlen, haddtype, hga, hoa⟩ :=
        processNext_pools ProcessingType.gpuInterpretation now
          { s with gpuAllocations := rest }
      simp only [if_pos] at hga
      rw [if_neg (by simp)] at hoa
      refine ⟨⟨?_, ?_⟩, ?_, ?_⟩
      · intro x hx
        rw [hga] at hx
        rcases List.mem_append.mp hx with hx' | hx'
        · exact ht.1 x (hsub x hx')
        · exact haddtype x hx'
      · intro x hx
        rw [hoa] at hx
        exact ht.2 x hx
      · rw [hga]
        rw [List.length_append]
        have : rest.length + 1 ≤ MAX_GPU_SLOTS := hlen ▸ hg
        omega
      · rw [hoa]
        exact ho
    | none =>
      cases hp2 : popAllocation requestId s.ocrAllocations with
      | some p =>
        rcases p with ⟨alloc, rest⟩
        obtain ⟨hmem, hlen, hsub⟩ := popAllocation_facts requestId
          s.ocrAllocations alloc rest hp2
        have hptype : alloc.processingType = ProcessingType.ocrExtraction :=
          ht.2 alloc hmem
        have hstep : (releaseResource requestId now s).2 =
            (processNextQueuedRequest alloc.processingType now
              { s with ocrAllocations := rest }).2 := by
          unfold releaseResource
          rw [hp1, hp2]
        rw [hstep, hptype]
        obtain ⟨added, haddlen, haddtype, hga, hoa⟩ :=
          processNext_pools ProcessingType.ocrExtraction now
            { s with ocrAllocations := rest }
        rw [if_neg (by simp)] at hga
        simp only [if_pos] at hoa
        refine ⟨⟨?_, ?_⟩, ?_, ?_⟩
        · intro x hx
          rw [hga] at hx
          exact ht.1 x hx
        · intro x hx
          rw [hoa] at hx
          rcases List.mem_append.mp hx with hx' | hx'
          · exact ht.2 x (hsub x hx')
          · exact haddtype x hx'
        · rw [hga]
          exact hg
        · rw [hoa]
          rw [List.length_append]
          have : rest.length + 1 ≤ MAX_OCR_SLOTS := hlen ▸ ho
          omega
      | none =>
        have hstep : (releaseResource requestId now s).2 = s := by
          unfold releaseResource
          rw [hp1, hp2]
        rw [hstep]
        exact ⟨ht, hg, ho⟩
  | starvationSweep now =>
    have happly : applyResourceOp s (.starvationSweep now) =
        (preventStarvation now s).2 := rfl
    rw [happly]
    exact ⟨ht, hg, ho⟩

/-- C9: from a fresh manager, no sequence of `request_processing`,
`release_resource` and `prevent_starvation` operations ever pushes the GPU
pool above `MAX_GPU_SLOTS` (5) or the OCR pool above `MAX_OCR_SLOTS` (10):
immediate allocation is guarded by `_can_allocate_immediately`, and the
refill in `release_resource` allocates a queued request only after an
allocation of the same pool has been removed. -/
theorem runResourceOps_capacity (ops : List ResourceOp) :
    (runResourceOps ops).gpuAllocations.length ≤ MAX_GPU_SLOTS ∧
      (runResourceOps ops).ocrAllocations.length ≤ MAX_OCR_SLOTS := by
  suffices h : ∀ (s : ResourceManagerState), typedPools s →
      s.gpuAllocations.length ≤ MAX_GPU_SLOTS →
      s.ocrAllocations.length ≤ MAX_OCR_SLOTS →
      typedPools (ops.foldl applyResourceOp s) ∧
        (ops.foldl applyResourceOp s).gpuAllocations.length ≤ MAX_GPU_SLOTS ∧
        (ops.foldl applyResourceOp s).ocrAllocations.length ≤ MAX_OCR_SLOTS by
    have h0 := h initialResourceManagerState
      ⟨(fun a ha => by cases ha), (fun a ha => by cases ha)⟩ (by decide) (by decide)
    exact ⟨h0.2.1, h0.2.2⟩
  induction ops with
  | nil => intro s ht hg ho; exact ⟨ht, hg, ho⟩
  | cons op rest ih =>
    intro s ht hg ho
    obtain ⟨ht', hg', ho'⟩ := applyResourceOp_preserves s op ht hg ho
    exact ih (applyResourceOp s op) ht' hg' ho'

/-- C9 witness: the capacity bounds at a concrete operation sequence (six
GPU requests — the sixth queues — then a release that refills from the
queue). -/
theorem runResourceOps_capacity_witness :
    (runResourceOps (List.replicate 6
        (ResourceOp.request "d" "i" .gpuInterpretation .standard .supporting 0) ++
      [ResourceOp.release 0 1])).gpuAllocations.length ≤ MAX_GPU_SLOTS ∧
    (runResourceOps (List.replicate 6
        (ResourceOp.request "d" "i" .gpuInterpretation .standard .supporting 0) ++
      [ResourceOp.release 0 1])).ocrAllocations.length ≤ MAX_OCR_SLOTS :=
  runResourceOps_capacity _
